import Mathlib

/-!
TianguiStore: the order repository (`backend/models/pedido.model.js`), the order
router (`backend/routes/pedido.routes.js`), the global error handler
(`backend/server.js`), the client order view (`public/scripts/misPedidos.js`) and
the session guard (`public/scripts/authGuard.js`), as a shallow embedding.

The relational store is a record of tables, each table a list of rows.  Every
repository function issues exactly one SQL statement, which is translated clause
by clause:

* `FROM a JOIN b ON c` is `sqlJoin a b c` (inner join: all pairs satisfying `c`);
* `WHERE` is `List.filter`;
* `ORDER BY k DESC` is `orderByDesc k` (a stable sort; SQL leaves ties open);
* `LIMIT 0, n` is `List.take n`;
* `SUM(e)` without `GROUP BY` is `sqlSum`, which is `NULL` (`none`) on no rows;
* `INSERT INTO t VALUES ..` appends a row;
* `UPDATE t SET .. WHERE ..` is `List.map` with a conditional record update;
* `DELETE FROM t WHERE ..` is `List.filter` on the negated condition.

Identifiers and timestamps are natural numbers; money amounts (`DECIMAL`) and
quantities are integers (an amount is counted in the smallest currency unit).
Columns hold no `NULL`.  Key and reference constraints are not part of the store:
where a statement depends on one, it is a hypothesis of the theorem.

The browser scripts work on parsed JSON (`Json`); an `async` function is a
computation in `Except ExcepcionJS`, a rejected promise being an error, and a
`try`/`catch` block is `intentar`.  What the scripts call but do not define
(`fetch`, `atob`, `JSON.parse`, the text and the parsing of a number, the date
format, the middlewares of the router) is a parameter of the model.
-/

namespace TianguiStore

/-! ## Tables -/

/-- Row of `usuarios` (the columns the repository reads). -/
structure Usuario where
  usuario_id : Nat
  correo_electronico : String
  nombre : String
  apellido_paterno : String
  deriving DecidableEq, Repr

/-- Row of `estados_pedido`. -/
structure EstadoPedido where
  estado_id : Nat
  estado_nombre : String
  deriving DecidableEq, Repr

/-- Row of `pedidos`.  The repository reads two owner columns: `usuario_id`
(join of `obtenerPedidos`) and `cliente_id` (filter of `obtenerMisPedidos`).
`borrado_logico` is the soft-delete flag, compared with `0` and set to `1`. -/
structure Pedido where
  pedido_id : Nat
  usuario_id : Nat
  cliente_id : Nat
  estado_id : Nat
  fecha_pedido : Nat
  total : Int
  metodo_pago : String
  borrado_logico : Nat
  deriving DecidableEq, Repr

/-- Row of `productos`. -/
structure Producto where
  producto_id : Nat
  nombre : String
  precio : Int
  deriving DecidableEq, Repr

/-- Row of `pedido_productos` (order line item). -/
structure PedidoProducto where
  fk_pedidos : Nat
  fk_productos : Nat
  deriving DecidableEq, Repr

/-- Row of `carrito` (cart entry). -/
structure Carrito where
  usuario_id : Nat
  producto_id : Nat
  cantidad : Int
  deriving DecidableEq, Repr

/-- State of the relational store. -/
structure BaseDatos where
  pedidos : List Pedido
  usuarios : List Usuario
  estados_pedido : List EstadoPedido
  productos : List Producto
  pedido_productos : List PedidoProducto
  carrito : List Carrito
  deriving DecidableEq, Repr

/-! ## SQL building blocks -/

/-- Inner join `xs JOIN ys ON cond`. -/
def sqlJoin {α β : Type} (xs : List α) (ys : List β) (cond : α → β → Bool) : List (α × β) :=
  xs.flatMap (fun x => (ys.filter (cond x)).map (fun y => (x, y)))

/-- Aggregate `SUM` over the selected rows: `NULL` when there is no row. -/
def sqlSum (vals : List Int) : Option Int :=
  match vals with
  | [] => none
  | v :: vs => some (v :: vs).sum

/-- Order `a` before `b` when the key of `a` is at least the key of `b`. -/
def DescBy {α : Type} (key : α → Nat) (a b : α) : Prop := key b ≤ key a

instance instDecidableDescBy {α : Type} (key : α → Nat) : DecidableRel (DescBy key) :=
  fun a b => inferInstanceAs (Decidable (key b ≤ key a))

instance instTotalDescBy {α : Type} (key : α → Nat) : IsTotal α (DescBy key) :=
  ⟨fun a b => Nat.le_total (key b) (key a)⟩

instance instTransDescBy {α : Type} (key : α → Nat) : IsTrans α (DescBy key) :=
  ⟨fun _ _ _ hab hbc => Nat.le_trans hbc hab⟩

/-- Clause `ORDER BY key DESC`. -/
def orderByDesc {α : Type} (key : α → Nat) (rows : List α) : List α :=
  rows.insertionSort (DescBy key)

/-! ## Cart queries -/

/-- Model of `calcularTotalCarrito(usuario_id)`:
`SELECT SUM(c.cantidad * p.precio) AS total FROM carrito c
 JOIN productos p ON c.producto_id = p.producto_id WHERE c.usuario_id = ?`.
The aggregate yields one row, whose `total` is returned (`none` is `null`). -/
def calcularTotalCarrito (db : BaseDatos) (usuario_id : Nat) : Option Int :=
  sqlSum
    (((sqlJoin db.carrito db.productos (fun c p => c.producto_id == p.producto_id)).filter
        (fun cp => cp.1.usuario_id == usuario_id)).map
      (fun cp => cp.1.cantidad * cp.2.precio))

/-- Model of `limpiarCarrito(usuario_id)`: `DELETE FROM carrito WHERE usuario_id = ?`. -/
def limpiarCarrito (db : BaseDatos) (usuario_id : Nat) : BaseDatos :=
  { db with carrito := db.carrito.filter (fun c => !(c.usuario_id == usuario_id)) }

/-! ## Order queries -/

/-- Result row of `obtenerPedidos`: `p.*`, `u.correo_electronico`,
`CONCAT(u.nombre, ' ', u.apellido_paterno) AS nombre_usuario`, `e.estado_nombre`. -/
structure FilaPedido where
  pedido : Pedido
  correo_electronico : String
  nombre_usuario : String
  estado_nombre : String
  deriving DecidableEq, Repr

/-- Result row of `obtenerMisPedidos`: `p.*`, `e.estado_nombre`. -/
structure FilaMiPedido where
  pedido : Pedido
  estado_nombre : String
  deriving DecidableEq, Repr

/-- Result row of `getPedidoProducto`:
`p.pedido_id, pr.producto_id, pr.nombre AS nombre_producto, pr.precio`. -/
structure FilaPedidoProducto where
  pedido_id : Nat
  producto_id : Nat
  nombre_producto : String
  precio : Int
  deriving DecidableEq, Repr

/-- Model of `obtenerPedidos()`:
`SELECT p.*, u.correo_electronico, CONCAT(..) AS nombre_usuario, e.estado_nombre
 FROM pedidos p JOIN usuarios u ON p.usuario_id = u.usuario_id
 JOIN estados_pedido e ON p.estado_id = e.estado_id
 WHERE p.borrado_logico = 0 ORDER BY p.fecha_pedido DESC`. -/
def obtenerPedidos (db : BaseDatos) : List FilaPedido :=
  orderByDesc (fun r => r.pedido.fecha_pedido)
    (((sqlJoin
          (sqlJoin db.pedidos db.usuarios (fun p u => p.usuario_id == u.usuario_id))
          db.estados_pedido (fun pu e => pu.1.estado_id == e.estado_id)).filter
        (fun pue => pue.1.1.borrado_logico == 0)).map
      (fun pue =>
        { pedido := pue.1.1,
          correo_electronico := pue.1.2.correo_electronico,
          nombre_usuario := pue.1.2.nombre ++ " " ++ pue.1.2.apellido_paterno,
          estado_nombre := pue.2.estado_nombre }))

/-- Model of `obtenerMisPedidos(usuario_id)`:
`SELECT p.*, e.estado_nombre FROM pedidos p
 JOIN estados_pedido e ON p.estado_id = e.estado_id
 WHERE p.cliente_id = ? ORDER BY p.fecha_pedido DESC LIMIT 0, 25`. -/
def obtenerMisPedidos (db : BaseDatos) (usuario_id : Nat) : List FilaMiPedido :=
  ((orderByDesc (fun r => r.pedido.fecha_pedido)
    (((sqlJoin db.pedidos db.estados_pedido (fun p e => p.estado_id == e.estado_id)).filter
        (fun pe => pe.1.cliente_id == usuario_id)).map
      (fun pe => { pedido := pe.1, estado_nombre := pe.2.estado_nombre }))).drop 0).take 25

/-- Model of `crearPedidoProducto({fkPedidos, fkProductos})`:
`INSERT INTO pedido_productos(fk_pedidos, fk_productos) VALUES (?, ?)`. -/
def crearPedidoProducto (db : BaseDatos) (fkPedidos fkProductos : Nat) : BaseDatos :=
  { db with pedido_productos := db.pedido_productos ++ [⟨fkPedidos, fkProductos⟩] }

/-- Model of `getPedidoProducto(pedido_id)`:
`SELECT p.pedido_id, pr.producto_id, pr.nombre AS nombre_producto, pr.precio
 FROM pedidos p JOIN pedido_productos pp ON p.pedido_id = pp.fk_pedidos
 JOIN productos pr ON pr.producto_id = pp.fk_productos WHERE p.pedido_id = ?`. -/
def getPedidoProducto (db : BaseDatos) (pedido_id : Nat) : List FilaPedidoProducto :=
  ((sqlJoin
        (sqlJoin db.pedidos db.pedido_productos (fun p pp => p.pedido_id == pp.fk_pedidos))
        db.productos (fun ppp pr => pr.producto_id == ppp.2.fk_productos)).filter
      (fun r => r.1.1.pedido_id == pedido_id)).map
    (fun r =>
      { pedido_id := r.1.1.pedido_id,
        producto_id := r.2.producto_id,
        nombre_producto := r.2.nombre,
        precio := r.2.precio })

/-- Model of `actualizarEstadoPedido(pedido_id, estado_id)`:
`UPDATE pedidos SET estado_id = ? WHERE pedido_id = ?`, on the two parsed integers. -/
def actualizarEstadoPedido (db : BaseDatos) (pedido_id estado_id : Nat) : BaseDatos :=
  { db with
    pedidos := db.pedidos.map
      (fun p => if p.pedido_id == pedido_id then { p with estado_id := estado_id } else p) }

/-- Model of `borrarPedidoLogico(pedido_id)`:
`UPDATE pedidos SET borrado_logico = 1 WHERE pedido_id = ?`, on the parsed integer. -/
def borrarPedidoLogico (db : BaseDatos) (pedido_id : Nat) : BaseDatos :=
  { db with
    pedidos := db.pedidos.map
      (fun p => if p.pedido_id == pedido_id then { p with borrado_logico := 1 } else p) }

/-! ## Order creation through the stored procedure -/

/-- Scalar JavaScript values that reach `crearPedidoConSP`. -/
inductive ValorJS where
  | indefinido
  | nulo
  | numero (n : Int)
  | cadena (s : String)
  | booleano (b : Bool)
  deriving DecidableEq, Repr

/-- JavaScript truthiness, as tested by `!pedido_id`. -/
def ValorJS.esVerdadero : ValorJS → Bool
  | .indefinido => false
  | .nulo => false
  | .numero n => n != 0
  | .cadena s => s != ""
  | .booleano b => b

/-- Errors with which `crearPedidoConSP` can reject. -/
inductive ErrorJS where
  | typeError
  | nuevoError (mensaje : String)
  | baseDatos (mensaje : String)
  deriving DecidableEq, Repr

/-- Optional call `v?.trim()`: `undefined` on `undefined` and `null`, the trimmed
string on a string, and a `TypeError` on any other value (it has no `trim`). -/
def trimOpcional : ValorJS → Except ErrorJS ValorJS
  | .indefinido => .ok .indefinido
  | .nulo => .ok .indefinido
  | .cadena s => .ok (.cadena s.trim)
  | .numero _ => .error .typeError
  | .booleano _ => .error .typeError

/-- Row of a result set of `CALL sp_crear_pedido_completo(..)`; `pedido_id` is
`indefinido` when the row has no such column. -/
structure FilaSP where
  pedido_id : ValorJS
  deriving DecidableEq, Repr

/-- Message of the domain error of `crearPedidoConSP`. -/
def mensajeNoCreado : String := "No se pudo crear el pedido. Verifica los datos."

/-- Model of `crearPedidoConSP({.., direccion_envio, notas})`.  `respuesta` is the
outcome of `db.query`: a rejection, or the result sets of the call.  The pattern
`[[[resultado]]]` takes the first row of the first result set: destructuring a
missing result set throws a `TypeError`, a missing row binds `undefined` and
then `resultado.pedido_id` throws a `TypeError`. -/
def crearPedidoConSP (direccion_envio notas : ValorJS)
    (respuesta : Except ErrorJS (List (List FilaSP))) : Except ErrorJS ValorJS := do
  let _ ← trimOpcional direccion_envio
  let _ ← trimOpcional notas
  let conjuntos ← respuesta
  match conjuntos with
  | [] => throw .typeError
  | [] :: _ => throw .typeError
  | (resultado :: _) :: _ =>
    let pedido_id := resultado.pedido_id
    if !pedido_id.esVerdadero then
      throw (.nuevoError mensajeNoCreado)
    else
      pure pedido_id

/-! ## Specification-side notions -/

/-- Unit price of the product with identifier `producto_id`, if there is one. -/
def precioUnitario (db : BaseDatos) (producto_id : Nat) : Option Int :=
  (db.productos.find? (fun p => p.producto_id == producto_id)).map (fun p => p.precio)

/-- Cart entries of one user. -/
def entradasDe (db : BaseDatos) (usuario_id : Nat) : List Carrito :=
  db.carrito.filter (fun c => c.usuario_id == usuario_id)

/-- Sum of quantity times unit price over the cart entries of one user. -/
def sumaCarrito (db : BaseDatos) (usuario_id : Nat) : Int :=
  ((entradasDe db usuario_id).map
    (fun c => c.cantidad * (precioUnitario db c.producto_id).getD 0)).sum

/-- Cart `{A: qty 2 @ 10, B: qty 1 @ 5}` of user 42, next to an entry of user 7. -/
def dbEjemploCarrito : BaseDatos :=
  { pedidos := [], usuarios := [], estados_pedido := [],
    productos := [⟨1, "A", 10⟩, ⟨2, "B", 5⟩, ⟨3, "C", 100⟩],
    pedido_productos := [],
    carrito := [⟨42, 1, 2⟩, ⟨7, 3, 4⟩, ⟨42, 2, 1⟩] }

/-- Orders of the store owned by user `u` (column `cliente_id`). -/
def pedidosDe (db : BaseDatos) (u : Nat) : List Pedido :=
  db.pedidos.filter (fun p => p.cliente_id == u)

/-- A listing `rows` is the listing of the 25 most recent orders of user `u`:
it has 25 rows, or as many rows as `u` has orders when these are fewer; every
row is an order of the store owned by `u`; the rows are newest first; the
orders of `u` are the listed ones together with the orders left out, each as
often as the store holds it, and no order left out is strictly newer than a
listed one; every row carries the name of the status of its order. -/
def EsListadoReciente (db : BaseDatos) (u : Nat) (rows : List FilaMiPedido) : Prop :=
  rows.length = min 25 (pedidosDe db u).length
    ∧ rows.length ≤ 25
    ∧ (∀ r ∈ rows, r.pedido ∈ db.pedidos ∧ r.pedido.cliente_id = u)
    ∧ rows.Sorted (DescBy (fun r => r.pedido.fecha_pedido))
    ∧ (∃ resto : List Pedido,
        (rows.map (fun r => r.pedido) ++ resto).Perm (pedidosDe db u)
          ∧ ∀ r ∈ rows, ∀ p ∈ resto, p.fecha_pedido ≤ r.pedido.fecha_pedido)
    ∧ (∀ p ∈ db.pedidos, p.cliente_id = u → p ∉ rows.map (fun r => r.pedido) →
        ∀ r ∈ rows, p.fecha_pedido ≤ r.pedido.fecha_pedido)
    ∧ (∀ r ∈ rows, ∃ e ∈ db.estados_pedido,
        e.estado_id = r.pedido.estado_id ∧ e.estado_nombre = r.estado_nombre)

/-- The status table with the two cancellable states. -/
def estadosEjemplo : List EstadoPedido := [⟨1, "Pendiente"⟩, ⟨2, "En proceso"⟩]

/-- One user, two orders of that user; order 2 is soft-deleted. -/
def dbConBorrado : BaseDatos :=
  { pedidos := [⟨1, 7, 7, 1, 100, 2500, "tarjeta", 0⟩, ⟨2, 7, 7, 2, 200, 900, "efectivo", 1⟩],
    usuarios := [⟨7, "ana@example.com", "Ana", "Ruiz"⟩],
    estados_pedido := estadosEjemplo,
    productos := [], pedido_productos := [], carrito := [] }

/-- Two orders of user 7; the newer one carries a status identifier that has no
row in `estados_pedido`. -/
def dbEstadoAusente : BaseDatos :=
  { pedidos := [⟨1, 7, 7, 99, 300, 2500, "tarjeta", 0⟩, ⟨2, 7, 7, 1, 200, 900, "efectivo", 0⟩],
    usuarios := [⟨7, "ana@example.com", "Ana", "Ruiz"⟩],
    estados_pedido := estadosEjemplo,
    productos := [], pedido_productos := [], carrito := [] }

/-- User 7 has 27 orders, numbered 1 to 27 in order of creation; user 8 has one. -/
def dbMuchosPedidos : BaseDatos :=
  { pedidos := (List.range 27).map (fun i => ⟨i + 1, 7, 7, 1 + i % 2, 1000 + i, 500, "tarjeta", 0⟩)
      ++ [⟨28, 8, 8, 1, 5000, 700, "efectivo", 0⟩],
    usuarios := [⟨7, "ana@example.com", "Ana", "Ruiz"⟩, ⟨8, "luis@example.com", "Luis", "Mora"⟩],
    estados_pedido := estadosEjemplo,
    productos := [], pedido_productos := [], carrito := [] }

/-! ## JavaScript values of the browser scripts -/

/-- Value handled by the browser scripts: what `JSON.parse` yields, and
`undefined` for a missing property.  Numbers are integers (identifiers, status
codes, timestamps in seconds); an object lists its properties, each key once. -/
inductive Json where
  | indefinido
  | nulo
  | booleano (b : Bool)
  | numero (n : Int)
  | cadena (s : String)
  | arreglo (xs : List Json)
  | objeto (campos : List (String × Json))
  deriving Repr

/-- Exceptions raised in the browser scripts. -/
inductive ExcepcionJS where
  | typeError
  | syntaxError
  | domException
  | error (mensaje : String)
  deriving DecidableEq, Repr

/-- Block `try { cuerpo } catch (e) { rescate e }`. -/
def intentar {α : Type} (cuerpo : Except ExcepcionJS α)
    (rescate : ExcepcionJS → Except ExcepcionJS α) : Except ExcepcionJS α :=
  match cuerpo with
  | .ok a => .ok a
  | .error e => rescate e

/-- JavaScript truthiness of a value (`!v`, `v || w`, `v && w`). -/
def Json.esVerdadero : Json → Bool
  | .indefinido => false
  | .nulo => false
  | .booleano b => b
  | .numero n => n != 0
  | .cadena s => s != ""
  | .arreglo _ => true
  | .objeto _ => true

/-- Operator `typeof v`. -/
def Json.tipo : Json → String
  | .indefinido => "undefined"
  | .nulo => "object"
  | .booleano _ => "boolean"
  | .numero _ => "number"
  | .cadena _ => "string"
  | .arreglo _ => "object"
  | .objeto _ => "object"

/-- Own property `k` of an object, `undefined` when it has none. -/
def Json.buscar (campos : List (String × Json)) (k : String) : Json :=
  match campos.find? (fun c => c.1 == k) with
  | some c => c.2
  | none => .indefinido

/-- Property read `v.k`, for the names the scripts read on parsed data (none of
them is inherited from a prototype): a `TypeError` on `undefined` and `null`,
the own property on an object, `undefined` on any other value. -/
def Json.prop (v : Json) (k : String) : Except ExcepcionJS Json :=
  match v with
  | .indefinido => .error .typeError
  | .nulo => .error .typeError
  | .objeto campos => .ok (Json.buscar campos k)
  | _ => .ok .indefinido

/-- Optional read `v?.k`: `undefined` on `undefined` and `null`. -/
def Json.propOpcional (v : Json) (k : String) : Json :=
  match v with
  | .objeto campos => Json.buscar campos k
  | _ => .indefinido

/-- Strict equality `v === n` with a number literal. -/
def Json.igualANumero (v : Json) (n : Int) : Bool :=
  match v with
  | .numero m => m == n
  | _ => false

/-- Decimal digits of an integer: the text JavaScript gives a whole number of
magnitude below `10^21`. -/
def textoDecimal (n : Int) : String := toString n

/-- An object with an own property `toString` has no primitive value: the
property of a parsed object is never callable, and the inherited `valueOf`
returns the object itself. -/
def tieneToStringPropio (campos : List (String × Json)) : Bool :=
  campos.any (fun c => c.1 == "toString")

mutual
/-- Conversion to string, as in a template literal.  `textoNumero` is the text
the runtime gives a number.  The conversion throws a `TypeError` on an object
without primitive value. -/
def Json.aCadena (textoNumero : Int → String) : Json → Except ExcepcionJS String
  | .indefinido => .ok "undefined"
  | .nulo => .ok "null"
  | .booleano b => .ok (if b then "true" else "false")
  | .numero n => .ok (textoNumero n)
  | .cadena s => .ok s
  | .arreglo xs => Json.unir textoNumero xs
  | .objeto campos =>
    if tieneToStringPropio campos then .error .typeError else .ok "[object Object]"
/-- Elements of an array joined by commas (`Array.prototype.join`). -/
def Json.unir (textoNumero : Int → String) : List Json → Except ExcepcionJS String
  | [] => .ok ""
  | [x] => Json.elemento textoNumero x
  | x :: y :: xs =>
    match Json.elemento textoNumero x with
    | .error e => .error e
    | .ok a =>
      match Json.unir textoNumero (y :: xs) with
      | .error e => .error e
      | .ok b => .ok (a ++ "," ++ b)
/-- Text of one array element in a join: empty for `undefined` and `null`. -/
def Json.elemento (textoNumero : Int → String) : Json → Except ExcepcionJS String
  | .indefinido => .ok ""
  | .nulo => .ok ""
  | .booleano b => .ok (if b then "true" else "false")
  | .numero n => .ok (textoNumero n)
  | .cadena s => .ok s
  | .arreglo xs => Json.unir textoNumero xs
  | .objeto campos =>
    if tieneToStringPropio campos then .error .typeError else .ok "[object Object]"
end

/-- Test `v.length === 0`. -/
def Json.longitudEsCero (v : Json) : Except ExcepcionJS Bool :=
  match v with
  | .indefinido => .error .typeError
  | .nulo => .error .typeError
  | .arreglo xs => .ok xs.isEmpty
  | .cadena s => .ok (s == "")
  | .objeto campos => .ok ((Json.buscar campos "length").igualANumero 0)
  | _ => .ok false

/-- Values visited by `for (const x of v)`: the elements of an array, the
characters of a string; any other value is not iterable. -/
def Json.iterar (v : Json) : Except ExcepcionJS (List Json) :=
  match v with
  | .arreglo xs => .ok xs
  | .cadena s => .ok (s.toList.map (fun c => .cadena (String.singleton c)))
  | _ => .error .typeError

/-! ## Client order view (`public/scripts/misPedidos.js`) -/

/-- Outcome of a request whose `fetch` resolved: the `ok` flag of the response
and the value of `response.json()`, `none` when the body is not JSON. -/
structure RespuestaHTTP where
  ok : Bool
  json : Option Json
  deriving Repr

/-- List item of one product: the template `<li>nombre_producto (precio)</li>`. -/
def itemProducto (textoNumero : Int → String) (p : Json) : Except ExcepcionJS String := do
  let nombre_producto ← p.prop "nombre_producto"
  let nombre ← nombre_producto.aCadena textoNumero
  let precio ← p.prop "precio"
  let importe ← precio.aCadena textoNumero
  pure ("<li>" ++ nombre ++ " (" ++ importe ++ ")</li>")

/-- Inline item shown when the line items of an order cannot be loaded. -/
def itemErrorProductos : String := "<li class=\"text-danger\">Error al cargar productos</li>"

/-- Model of `obtenerProductosHTML(pedidoId)`.  `fetch url` is `none` when the
request rejects.  The body is read before `response.ok` is tested;
`pedidos.map` throws a `TypeError` unless `pedidos` is an array.  Calls of
`console` are not part of the model. -/
def obtenerProductosHTML (textoNumero : Int → String) (fetch : String → Option RespuestaHTTP)
    (pedidoId : Json) : Except ExcepcionJS String :=
  intentar
    (do
      let texto ← pedidoId.aCadena textoNumero
      let response ← match fetch ("/pedidos/traerinfopedido/" ++ texto) with
        | none => throw ExcepcionJS.typeError
        | some r => pure r
      let pedidosMainJS ← match response.json with
        | none => throw ExcepcionJS.syntaxError
        | some j => pure j
      let pedidos ← pedidosMainJS.prop "pedidos"
      if !response.ok then
        throw (ExcepcionJS.error "No se pudieron obtener los productos.")
      else
        match pedidos with
        | .arreglo ps => do
          let items ← ps.mapM (itemProducto textoNumero)
          pure (String.join items)
        | _ => throw ExcepcionJS.typeError)
    (fun _ => pure itemErrorProductos)

/-- Placeholder row for an empty list of orders. -/
def filaSinPedidos : String :=
  "<tr><td colspan=\"6\" class=\"text-center text-muted\">🛒 No tienes pedidos aún.</td></tr>"

/-- Inline row shown when the orders cannot be loaded. -/
def filaErrorPedidos : String :=
  "<tr><td colspan=\"6\" class=\"text-center text-danger\">Error al cargar tus pedidos. Intenta más tarde.</td></tr>"

/-- Button of the cancel action of one order. -/
def botonCancelar (textoNumero : Int → String) (pedido_id : Json) : Except ExcepcionJS String := do
  let texto ← pedido_id.aCadena textoNumero
  pure ("<button class=\"btn btn-sm btn-danger\" onclick=\"cancelarPedido(" ++ texto
    ++ ")\">Cancelar</button>")

/-- Text shown in place of the cancel action. -/
def spanNoCancelable : String := "<span class=\"text-muted\">No cancelable</span>"

/-- Content of the last cell of a row: with
`puedeCancelar = pedido.estado_id === 1 || pedido.estado_id === 2`, the button
when `puedeCancelar`, the text otherwise. -/
def celdaAccion (textoNumero : Int → String) (pedido_id estado_id : Json) :
    Except ExcepcionJS String :=
  let puedeCancelar := estado_id.igualANumero 1 || estado_id.igualANumero 2
  if puedeCancelar then botonCancelar textoNumero pedido_id else .ok spanNoCancelable

/-- Cells of a row that precede the action cell.  The order fields are put into
the markup as they are, without escaping.  `fechaLocal` stands for
`new Date(v).toLocaleDateString()`.  White space between tags is left out. -/
def celdasDatos (textoNumero : Int → String) (fechaLocal : Json → String)
    (pedido_id fecha_pedido estado_nombre notas : Json) (productosHTML : String) :
    Except ExcepcionJS String := do
  let numero ← pedido_id.aCadena textoNumero
  let estado ← estado_nombre.aCadena textoNumero
  let nota ← (if notas.esVerdadero then notas else Json.cadena "Sin notas").aCadena textoNumero
  pure ("<tr><td>#" ++ numero ++ "</td><td>" ++ fechaLocal fecha_pedido ++ "</td><td>"
    ++ estado ++ "</td><td>" ++ nota
    ++ "</td><td><ul class=\"list-unstyled small\">" ++ productosHTML ++ "</ul></td>")

/-- Body of the loop of `cargarPedidosUsuario` for one order: the row `filaHTML`. -/
def filaHTML (textoNumero : Int → String) (fetch : String → Option RespuestaHTTP)
    (fechaLocal : Json → String) (pedido : Json) : Except ExcepcionJS String := do
  let pedido_id ← pedido.prop "pedido_id"
  let productosHTML ← obtenerProductosHTML textoNumero fetch pedido_id
  let estado_id ← pedido.prop "estado_id"
  let fecha_pedido ← pedido.prop "fecha_pedido"
  let estado_nombre ← pedido.prop "estado_nombre"
  let notas ← pedido.prop "notas"
  let datos ← celdasDatos textoNumero fechaLocal pedido_id fecha_pedido estado_nombre notas
    productosHTML
  let accion ← celdaAccion textoNumero pedido_id estado_id
  pure (datos ++ "<td>" ++ accion ++ "</td></tr>")

/-- Loop `for (const pedido of pedidos)`: each row is appended to the table
(`insertAdjacentHTML("beforeend", filaHTML)`). -/
def agregarFilas (textoNumero : Int → String) (fetch : String → Option RespuestaHTTP)
    (fechaLocal : Json → String) : List Json → List String → Except ExcepcionJS (List String)
  | [], tabla => .ok tabla
  | pedido :: resto, tabla =>
    match filaHTML textoNumero fetch fechaLocal pedido with
    | .error e => .error e
    | .ok fila => agregarFilas textoNumero fetch fechaLocal resto (tabla ++ [fila])

/-- Model of `cargarPedidosUsuario()`.  `tabla` is the content of the element
`tabla-pedidos` as a list of HTML pieces, `none` when the element is missing;
`fetchMis` is the outcome of the request to `/pedidos/mis`, `none` when it
rejects.  The result is the content of the table afterwards. -/
def cargarPedidosUsuario (textoNumero : Int → String) (fetchMis : Option RespuestaHTTP)
    (fetch : String → Option RespuestaHTTP) (fechaLocal : Json → String)
    (tabla : Option (List String)) : Except ExcepcionJS (Option (List String)) :=
  match tabla with
  | none => .ok none
  | some contenido =>
    intentar
      (do
        let response ← match fetchMis with
          | none => throw ExcepcionJS.typeError
          | some r => pure r
        if !response.ok then
          throw (ExcepcionJS.error "No se pudieron obtener los pedidos.")
        else
          let pedidos ← match response.json with
            | none => throw ExcepcionJS.syntaxError
            | some j => pure j
          if (← pedidos.longitudEsCero) then
            pure (some [filaSinPedidos])
          else
            let lista ← pedidos.iterar
            let filas ← agregarFilas textoNumero fetch fechaLocal lista contenido
            pure (some filas))
      (fun _ => pure (some [filaErrorPedidos]))

/-- Effects of the cancel action of the view: the request
`PUT /pedidos/:id/cancelar`, a message shown with `alert`, the page reload. -/
inductive EfectoVista where
  | peticionPut (url : String)
  | alerta (mensaje : String)
  | recargar
  deriving DecidableEq, Repr

/-- Message of the `catch` block of the cancel action. -/
def alertaErrorInesperado : String := "Error inesperado al cancelar el pedido."

/-- Model of `cancelarPedido(pedidoId)` of the view, the function the Cancel
button calls: the effects it performs, in order.  `confirmar` is the answer to
`confirm(..)`; `fetchPut url` is the outcome of the request, `none` when it
rejects.  The status of the order is not read. -/
def Cliente.cancelarPedido (textoNumero : Int → String) (confirmar : Bool)
    (fetchPut : String → Option RespuestaHTTP) (pedidoId : Json) : List EfectoVista :=
  if !confirmar then []
  else
    match pedidoId.aCadena textoNumero with
    | .error _ => [.alerta alertaErrorInesperado]
    | .ok texto =>
      .peticionPut ("/pedidos/" ++ texto ++ "/cancelar") ::
        (match fetchPut ("/pedidos/" ++ texto ++ "/cancelar") with
        | none => [.alerta alertaErrorInesperado]
        | some response =>
          match response.json with
          | none => [.alerta alertaErrorInesperado]
          | some data =>
            if response.ok then [.alerta "✅ Pedido cancelado correctamente.", .recargar]
            else
              match (do
                  let mensaje ← data.prop "mensaje"
                  mensaje.aCadena textoNumero) with
              | .error _ => [.alerta alertaErrorInesperado]
              | .ok texto2 => [.alerta ("❌ No se pudo cancelar el pedido: " ++ texto2)])

/-- An order in status 3 whose free-text notes are the markup of a cancel button. -/
def pedidoConBotonEnNotas : Json :=
  .objeto [("pedido_id", .numero 6), ("estado_id", .numero 3),
    ("fecha_pedido", .cadena "2025-05-01T12:00:00.000Z"),
    ("estado_nombre", .cadena "Enviado"),
    ("notas", .cadena
      "<button class=\"btn btn-sm btn-danger\" onclick=\"cancelarPedido(6)\">Cancelar</button>")]

/-- Markup of the cancel button of order 6. -/
def botonPedidoSeis : String :=
  "<button class=\"btn btn-sm btn-danger\" onclick=\"cancelarPedido(6)\">Cancelar</button>"

/-- Row rendered for `pedidoConBotonEnNotas` when its line items cannot be
loaded and the date is shown as `1/5/2025`. -/
def filaConBotonEnNotas : String :=
  "<tr><td>#6</td><td>1/5/2025</td><td>Enviado</td><td><button class=\"btn btn-sm btn-danger\" onclick=\"cancelarPedido(6)\">Cancelar</button></td><td><ul class=\"list-unstyled small\"><li class=\"text-danger\">Error al cargar productos</li></ul></td><td><span class=\"text-muted\">No cancelable</span></td></tr>"

/-! ## Session guard (`public/scripts/authGuard.js`) -/

/-- Built-in functions of the browser the session guard calls: `atob`
(`none` when it throws), `JSON.parse` (`none` when it throws), the conversion
of a string to a number (`none` is `NaN`) and the text of a number. -/
structure Navegador where
  atob : String → Option String
  jsonParse : String → Option Json
  aNumero : String → Option Int
  textoNumero : Int → String

/-- Conversion of a value to a number (`none` is `NaN`), as applied by `<` and
`-` to an operand that is compared with or subtracted from a number.  An array
or an object is first converted to its text, which throws a `TypeError` on an
object without primitive value. -/
def Json.aNumero (nav : Navegador) : Json → Except ExcepcionJS (Option Int)
  | .indefinido => .ok none
  | .nulo => .ok (some 0)
  | .booleano b => .ok (some (if b then 1 else 0))
  | .numero n => .ok (some n)
  | .cadena s => .ok (nav.aNumero s)
  | .arreglo xs =>
    match Json.unir nav.textoNumero xs with
    | .error e => .error e
    | .ok texto => .ok (nav.aNumero texto)
  | .objeto campos =>
    if tieneToStringPropio campos then .error .typeError
    else .ok (nav.aNumero "[object Object]")

/-- Comparison `v < n` with a number `n`: false when `v` converts to `NaN`. -/
def Json.menorQue (nav : Navegador) (v : Json) (n : Int) : Except ExcepcionJS Bool :=
  match v.aNumero nav with
  | .error e => .error e
  | .ok (some a) => .ok (decide (a < n))
  | .ok none => .ok false

/-- Pieces of a text between the occurrences of a separator character
(`String.prototype.split` with a separator of one character). -/
def partir (sep : Char) : List Char → List (List Char)
  | [] => [[]]
  | c :: cs =>
    if c = sep then [] :: partir sep cs
    else
      match partir sep cs with
      | [] => [[c]]
      | s :: ss => (c :: s) :: ss

/-- Expression `JSON.parse(atob(token.split(".")[1]))`.  A token without a dot
has no second segment, and `atob(undefined)` decodes the text `undefined`. -/
def decodificarPayload (nav : Navegador) (token : String) : Except ExcepcionJS Json :=
  let segmento := match (partir '.' token.toList)[1]? with
    | some s => String.mk s
    | none => "undefined"
  match nav.atob segmento with
  | none => .error .domException
  | some texto =>
    match nav.jsonParse texto with
    | none => .error .syntaxError
    | some payload => .ok payload

/-- Model of `tokenExpirado(token)`; `ahora` is `Math.floor(Date.now() / 1000)`. -/
def tokenExpirado (nav : Navegador) (ahora : Int) (token : String) : Except ExcepcionJS Bool :=
  intentar
    (do
      let payload ← decodificarPayload nav token
      let exp ← payload.prop "exp"
      if !exp.esVerdadero then pure true
      else exp.menorQue nav ahora)
    (fun _ => pure true)

/-- Delay handed to `setTimeout`: a whole number of milliseconds, `NaN`, or a
value beyond the range in which the arithmetic of JavaScript numbers is exact. -/
inductive Retardo where
  | milisegundos (ms : Int)
  | nan
  | inexacto
  deriving DecidableEq, Repr

/-- Effects of `programarRenovacionToken`: the call `renovarToken()`, the call
`setTimeout(renovarToken, retardo)` and the call `cerrarSesionSilenciosa()`. -/
inductive Efecto where
  | renovarToken
  | setTimeout (retardo : Retardo)
  | cerrarSesionSilenciosa
  deriving DecidableEq, Repr

/-- Bound `2^53` of the whole numbers on which sums and products of JavaScript
numbers are exact. -/
def enteroExacto : Int := 9007199254740992

/-- Model of `programarRenovacionToken()`: the effects it performs, in order.
`token` is `localStorage.getItem("token")`.  JavaScript numbers are doubles:
`(exp - ahora - 60) * 1000` is the exact integer when the operands and the
result stay within `2^53` in magnitude, and `inexacto` stands for the rounded
value otherwise; rounding is monotone and keeps whole numbers below `2^53`, so
the test `tiempoAntesDeRenovar <= 0` on whole operands is that of the exact
value. -/
def programarRenovacionToken (nav : Navegador) (ahora : Int) (token : Option String) :
    List Efecto :=
  match token with
  | none => []
  | some t =>
    if t = "" then []
    else
      match (do
          let payload ← decodificarPayload nav t
          let exp ← payload.prop "exp"
          exp.aNumero nav) with
      | .error _ => [.cerrarSesionSilenciosa]
      | .ok none => [.setTimeout .nan]
      | .ok (some exp) =>
        let segundosRestantes := exp - ahora
        let tiempoAntesDeRenovar := (segundosRestantes - 60) * 1000
        if tiempoAntesDeRenovar ≤ 0 then [.renovarToken]
        else if exp.natAbs ≤ enteroExacto ∧ ahora.natAbs ≤ enteroExacto
            ∧ tiempoAntesDeRenovar ≤ enteroExacto then
          [.setTimeout (.milisegundos tiempoAntesDeRenovar)]
        else [.setTimeout .inexacto]

/-- Delay a browser timer applies to `setTimeout(f, retardo)`, `none` when the
model does not determine it: the argument is converted to a signed integer of
32 bits (`NaN` to 0), and a negative result counts as 0. -/
def retardoTemporizador : Retardo → Option Int
  | .milisegundos ms =>
    let w := ms % 4294967296
    let i := if 2147483648 ≤ w then w - 4294967296 else w
    some (if i < 0 then 0 else i)
  | .nan => some 0
  | .inexacto => none

/-- Model of `sesionValida()`: the value it returns.  `token` and `usuarioGuardado`
are the two items read from `localStorage` (`none` is `null`). -/
def sesionValida (nav : Navegador) (ahora : Int) (token usuarioGuardado : Option String) :
    Except ExcepcionJS Json := do
  let texto := match usuarioGuardado with
    | some s => if s = "" then "\x7b\x7d" else s
    | none => "\x7b\x7d"
  let usuario ← match nav.jsonParse texto with
    | none => throw ExcepcionJS.syntaxError
    | some u => pure u
  let usuario_id ← usuario.prop "usuario_id"
  let rol ← usuario.prop "rol"
  let permisos ← usuario.prop "permisos"
  let estructuraValida : Json :=
    if !usuario_id.esVerdadero then usuario_id
    else if !(rol.tipo == "string") then .booleano false
    else .booleano (permisos.tipo == "object")
  let leerProductos := (permisos.propOpcional "productos").propOpcional "leer"
  let leerUsuarios := (permisos.propOpcional "usuarios").propOpcional "leer"
  let tienePermisos : Json := if leerProductos.esVerdadero then leerProductos else leerUsuarios
  match token with
  | none => pure .nulo
  | some t =>
    if t = "" then pure (.cadena "")
    else do
      let expirado ← tokenExpirado nav ahora t
      if expirado then pure (.booleano false)
      else if !estructuraValida.esVerdadero then pure estructuraValida
      else pure tienePermisos

/-- The built-ins of the browser at the texts used in the examples below. -/
def navegadorEjemplo : Navegador :=
  { atob := fun s =>
      if s = "eyJleHAiOiJhYmMifQ==" then some "\x7b\"exp\":\"abc\"\x7d"
      else if s = "eyJleHAiOjIwMDAwMDAwMDB9" then some "\x7b\"exp\":2000000000\x7d"
      else if s = "eyJleHAiOjE3MDAwMDAwMzB9" then some "\x7b\"exp\":1700000030\x7d"
      else if s = "eyJleHAiOjE3MDI1OTIwMDB9" then some "\x7b\"exp\":1702592000\x7d"
      else none,
    jsonParse := fun s =>
      if s = "\x7b\x7d" then some (.objeto [])
      else if s = "\x7b\"exp\":\"abc\"\x7d" then some (.objeto [("exp", .cadena "abc")])
      else if s = "\x7b\"exp\":2000000000\x7d" then some (.objeto [("exp", .numero 2000000000)])
      else if s = "\x7b\"exp\":1700000030\x7d" then some (.objeto [("exp", .numero 1700000030)])
      else if s = "\x7b\"exp\":1702592000\x7d" then some (.objeto [("exp", .numero 1702592000)])
      else none,
    aNumero := fun s => if s = "" then some 0 else none,
    textoNumero := textoDecimal }

/-- A token whose payload is `\x7b"exp":"abc"\x7d`. -/
def tokenExpTexto : String := "eyJhbGciOiJIUzI1NiJ9.eyJleHAiOiJhYmMifQ==.firma"

/-- A token whose payload is `\x7b"exp":2000000000\x7d`. -/
def tokenVigente : String := "eyJhbGciOiJIUzI1NiJ9.eyJleHAiOjIwMDAwMDAwMDB9.firma"

/-- A token whose payload is `\x7b"exp":1700000030\x7d`. -/
def tokenPorExpirar : String := "eyJhbGciOiJIUzI1NiJ9.eyJleHAiOjE3MDAwMDAwMzB9.firma"

/-- A token whose payload is `\x7b"exp":1702592000\x7d`: at the second
1700000000 it expires in 30 days. -/
def tokenTreintaDias : String := "eyJhbGciOiJIUzI1NiJ9.eyJleHAiOjE3MDI1OTIwMDB9.firma"

/-! ## Order router (`backend/routes/pedido.routes.js`) -/

/-- Handler mounted on a route of the order router: a permission check
`verificarPermiso(recurso, accion)`, the validation chain `pedidoSchema`, the
check `validarResultados`, or a controller (the last handler of its route). -/
inductive Manejador where
  | verificarPermiso (recurso accion : String)
  | pedidoSchema
  | validarResultados
  | controlador (nombre : String)
  deriving DecidableEq, Repr

/-- Segment of a route path: a fixed text or a parameter such as `:id`. -/
inductive Segmento where
  | literal (texto : String)
  | parametro (nombre : String)
  deriving DecidableEq, Repr

/-- Route of the router: method, path pattern and handlers in mounting order. -/
structure Ruta where
  metodo : String
  patron : List Segmento
  manejadores : List Manejador
  deriving DecidableEq, Repr

/-- The routes of `pedido.routes.js`, in the order they are registered.  The
handler of `/traerinfopedido/:id` is the inline function that calls the
controller `getPedidoProducto`. -/
def router : List Ruta :=
  [ ⟨"GET", [], [.verificarPermiso "pedidos" "leer", .controlador "obtenerPedidos"]⟩,
    ⟨"POST", [.literal "mis"], [.controlador "obtenerMisPedidos"]⟩,
    ⟨"POST", [], [.pedidoSchema, .validarResultados, .controlador "crearPedido"]⟩,
    ⟨"POST", [.literal "makepp"], [.controlador "crearPedidoProducto"]⟩,
    ⟨"GET", [.literal "traerinfopedido", .parametro "id"], [.controlador "getPedidoProducto"]⟩,
    ⟨"POST", [.literal "desde-carrito"],
      [.verificarPermiso "pedidos" "crear", .pedidoSchema, .validarResultados,
        .controlador "crearPedidoDesdeCarrito"]⟩,
    ⟨"PUT", [.parametro "id", .literal "cancelar"],
      [.verificarPermiso "pedidos" "cancelar", .controlador "cancelarPedido"]⟩ ]

/-- Match of a path pattern against the segments of a request path (relative
to the mount point `/pedidos`); a parameter matches any non-empty segment. -/
def coincide : List Segmento → List String → Bool
  | [], [] => true
  | .literal t :: ps, s :: ss => s == t && coincide ps ss
  | .parametro _ :: ps, s :: ss => s != "" && coincide ps ss
  | _, _ => false

/-- Handlers invoked for one request, in order.  `pasa m` tells whether the
check `m` calls `next()` for this request; a check that does not pass ends the
request, and a controller answers it. -/
def ejecutar (pasa : Manejador → Bool) : List Manejador → List Manejador
  | [] => []
  | .controlador nombre :: _ => [.controlador nombre]
  | m :: ms => if pasa m then m :: ejecutar pasa ms else [m]

/-- Handlers invoked by the router for a request: those of the first route
whose method and path match. -/
def despachar (pasa : Manejador → Bool) (metodo : String) (ruta : List String) :
    List Manejador :=
  match router.find? (fun r => r.metodo == metodo && coincide r.patron ruta) with
  | some r => ejecutar pasa r.manejadores
  | none => []

/-! ## Cancellation -/

/-- Modelled from the spec: outcome of `cancel(orderId)`, the controller
`cancelarPedido` of `controllers/pedidoController`, which is not among the
sources: a confirmation or a state conflict. -/
inductive ResultadoCancelar where
  | cancelado
  | conflicto
  deriving DecidableEq, Repr

/-- Modelled from the spec: the step "reads current status" of `cancel(orderId)`
(the controller `cancelarPedido` is not among the sources): the status of the
order with that identifier, if there is one. -/
def estadoActual (db : BaseDatos) (pedido_id : Nat) : Option Nat :=
  (db.pedidos.find? (fun p => p.pedido_id == pedido_id)).map (fun p => p.estado_id)

/-- Modelled from the spec: `cancel(orderId)`, the controller `cancelarPedido`
of `controllers/pedidoController`, which is not among the sources.  It "reads
current status, applies the state-machine rule above, calls `updateStatus` with
the CANCELLED status if permitted, otherwise fails with a state-conflict
error"; cancellation is permitted only from PENDING (1) or PROCESSING (2).
`estadoCancelado` is the identifier of the CANCELLED status. -/
def cancelarPedido (estadoCancelado : Nat) (db : BaseDatos) (pedido_id : Nat) :
    BaseDatos × ResultadoCancelar :=
  if estadoActual db pedido_id = some 1 ∨ estadoActual db pedido_id = some 2 then
    (actualizarEstadoPedido db pedido_id estadoCancelado, .cancelado)
  else
    (db, .conflicto)

/-! ## Global error handler (`backend/server.js`) -/

/-- Error received by the global error handler: `err.message` and the text of
`err.toString()`. -/
structure ErrorExpress where
  message : ValorJS
  aCadena : String
  deriving DecidableEq, Repr

/-- Response of the global error handler: status code and JSON body
(`detalles` is `none` when the body has no such field). -/
structure RespuestaError where
  estado : Nat
  mensaje : String
  detalles : Option ValorJS
  deriving DecidableEq, Repr

/-- Constant `ENV = process.env.NODE_ENV || "development"`; `nodeEnv` is `none`
when the variable is not set. -/
def ENV (nodeEnv : Option String) : String :=
  match nodeEnv with
  | some s => if s = "" then "development" else s
  | none => "development"

/-- Constant `IS_DEV = ENV !== "production"`. -/
def IS_DEV (nodeEnv : Option String) : Bool := ENV nodeEnv != "production"

/-- Model of the global error handler:
`response = \x7b mensaje, ...(IS_DEV && \x7b detalles: err.message || err.toString() \x7d) \x7d`,
sent with `res.status(500).json(response)`. -/
def manejadorErrores (nodeEnv : Option String) (err : ErrorExpress) : RespuestaError :=
  { estado := 500,
    mensaje := "Ha ocurrido un error inesperado.",
    detalles :=
      if IS_DEV nodeEnv then
        some (if err.message.esVerdadero then err.message else .cadena err.aCadena)
      else none }

/-- One order in status 1, one in status 3, one product and one line item. -/
def dbLineas : BaseDatos :=
  { pedidos := [⟨1, 7, 7, 1, 100, 2500, "tarjeta", 0⟩, ⟨2, 7, 7, 3, 200, 900, "efectivo", 0⟩],
    usuarios := [⟨7, "ana@example.com", "Ana", "Ruiz"⟩],
    estados_pedido := estadosEjemplo,
    productos := [⟨10, "Cafe", 120⟩, ⟨11, "Taza", 80⟩],
    pedido_productos := [⟨1, 10⟩, ⟨2, 10⟩],
    carrito := [⟨7, 11, 1⟩] }

/-! ## Lemmas on the SQL building blocks -/

theorem sqlJoin_nil {α β : Type} (ys : List β) (cond : α → β → Bool) :
    sqlJoin ([] : List α) ys cond = [] := rfl

theorem sqlJoin_cons {α β : Type} (x : α) (xs : List α) (ys : List β) (cond : α → β → Bool) :
    sqlJoin (x :: xs) ys cond
      = (ys.filter (cond x)).map (fun y => (x, y)) ++ sqlJoin xs ys cond := by
  simp [sqlJoin]

theorem mem_sqlJoin {α β : Type} {xs : List α} {ys : List β} {cond : α → β → Bool}
    {r : α × β} : r ∈ sqlJoin xs ys cond ↔ r.1 ∈ xs ∧ r.2 ∈ ys ∧ cond r.1 r.2 = true := by
  obtain ⟨a, b⟩ := r
  simp only [sqlJoin, List.mem_flatMap, List.mem_map, List.mem_filter, Prod.mk.injEq]
  constructor
  · rintro ⟨x, hx, y, ⟨hy, hc⟩, rfl, rfl⟩
    exact ⟨hx, hy, hc⟩
  · rintro ⟨hx, hy, hc⟩
    exact ⟨a, hx, b, ⟨hy, hc⟩, rfl, rfl⟩

/-- In a table whose key column has no repeated value, selecting on the key of
one of its rows yields that row alone. -/
theorem filter_key_eq_singleton {β : Type} (key : β → Nat) :
    ∀ (ys : List β), (ys.map key).Nodup → ∀ y ∈ ys,
      ys.filter (fun z => key y == key z) = [y]
  | [], _, _, hy => by simp at hy
  | z :: zs, hnd, y, hy => by
    rw [List.map_cons, List.nodup_cons] at hnd
    rcases List.mem_cons.mp hy with rfl | hmem
    · have hrest : zs.filter (fun z => key y == key z) = [] := by
        rw [List.filter_eq_nil_iff]
        intro w hw hk
        exact hnd.1 (by rw [beq_iff_eq.mp hk]; exact List.mem_map_of_mem key hw)
      simp [List.filter_cons, hrest]
    · have hne : (key y == key z) = false := by
        rw [beq_eq_false_iff_ne]
        intro hk
        exact hnd.1 (by rw [← hk]; exact List.mem_map_of_mem key hmem)
      rw [List.filter_cons, hne]
      exact filter_key_eq_singleton key zs hnd.2 y hmem

/-- Selecting on a key value that some row carries yields exactly one row. -/
theorem filter_key_unique {β : Type} (key : β → Nat) (ys : List β)
    (hnd : (ys.map key).Nodup) (k : Nat) (hk : ∃ y ∈ ys, key y = k) :
    ∃ y, y ∈ ys ∧ key y = k ∧ ys.filter (fun z => k == key z) = [y] := by
  obtain ⟨y, hy, rfl⟩ := hk
  exact ⟨y, hy, rfl, filter_key_eq_singleton key ys hnd y hy⟩

theorem sqlJoin_append {α β : Type} (xs xs2 : List α) (ys : List β) (cond : α → β → Bool) :
    sqlJoin (xs ++ xs2) ys cond = sqlJoin xs ys cond ++ sqlJoin xs2 ys cond := by
  simp [sqlJoin, List.flatMap_append]

/-- A condition on the left row can be applied before the join. -/
theorem sqlJoin_filter_left {α β : Type} (ys : List β) (cond : α → β → Bool) (f : α → Bool) :
    ∀ (xs : List α),
      (sqlJoin xs ys cond).filter (fun r => f r.1) = sqlJoin (xs.filter f) ys cond
  | [] => rfl
  | x :: xs => by
    rw [sqlJoin_cons, List.filter_append, sqlJoin_filter_left ys cond f xs, List.filter_map]
    cases hf : f x with
    | true =>
      have hall : (ys.filter (cond x)).filter ((fun r : α × β => f r.1) ∘ fun y => (x, y))
          = ys.filter (cond x) := by
        rw [List.filter_eq_self]
        intro y _
        simp [hf]
      rw [hall, List.filter_cons, hf, if_pos rfl, sqlJoin_cons]
    | false =>
      have hnone : (ys.filter (cond x)).filter ((fun r : α × β => f r.1) ∘ fun y => (x, y))
          = [] := by
        rw [List.filter_eq_nil_iff]
        intro y _
        simp [hf]
      rw [hnone, List.filter_cons, hf]
      simp

theorem sqlSum_eq_some {vals : List Int} (h : vals ≠ []) : sqlSum vals = some vals.sum := by
  cases vals with
  | nil => exact absurd rfl h
  | cons v vs => rfl

theorem sqlSum_eq_none_iff {vals : List Int} : sqlSum vals = none ↔ vals = [] := by
  cases vals <;> simp [sqlSum]

/-! ## Cart total -/

/-- The values summed by `calcularTotalCarrito` are, entry by entry of the user,
quantity times the unit price of the product. -/
theorem valores_carrito (ps : List Producto) (u : Nat)
    (hkey : (ps.map (fun p => p.producto_id)).Nodup) :
    ∀ (cs : List Carrito),
      (∀ c ∈ cs, c.usuario_id = u → ∃ p ∈ ps, p.producto_id = c.producto_id) →
      ((sqlJoin cs ps (fun c p => c.producto_id == p.producto_id)).filter
          (fun cp => cp.1.usuario_id == u)).map (fun cp => cp.1.cantidad * cp.2.precio)
        = (cs.filter (fun c => c.usuario_id == u)).map
            (fun c => c.cantidad *
              ((ps.find? (fun p => p.producto_id == c.producto_id)).map
                (fun p => p.precio)).getD 0)
  | [], _ => by simp [sqlJoin_nil]
  | c :: cs, href => by
    have ih := valores_carrito ps u hkey cs
      (fun d hd hu => href d (List.mem_cons_of_mem c hd) hu)
    rw [sqlJoin_cons, List.filter_append, List.map_append, ih, List.filter_map]
    by_cases hu : c.usuario_id = u
    · obtain ⟨p, hp, hpk, hfil⟩ := filter_key_unique (fun p => p.producto_id) ps hkey
        c.producto_id (href c (List.mem_cons_self c cs) hu)
      have hfind : ps.find? (fun q => q.producto_id == c.producto_id) = some p := by
        have h1 : ps.find? (fun q => c.producto_id == q.producto_id) = some p := by
          rw [← List.filter_head?, hfil]; rfl
        have h2 : (fun q : Producto => q.producto_id == c.producto_id)
            = (fun q => c.producto_id == q.producto_id) := by
          funext q; exact Bool.beq_comm
        rw [h2]; exact h1
      have hall : (ps.filter (fun q => c.producto_id == q.producto_id)).filter
          ((fun cp : Carrito × Producto => cp.1.usuario_id == u) ∘ fun y => (c, y)) = [p] := by
        rw [hfil]; simp [hu]
      rw [hall]
      simp [List.filter_cons, hu, hfind]
    · have hnone : (ps.filter (fun q => c.producto_id == q.producto_id)).filter
          ((fun cp : Carrito × Producto => cp.1.usuario_id == u) ∘ fun y => (c, y)) = [] := by
        rw [List.filter_eq_nil_iff]
        intro q _
        simp [hu]
      rw [hnone]
      simp [List.filter_cons, hu]

/-- C1. When product identifiers are unique, every cart entry of the user
references an existing product and the user has at least one entry,
`calcularTotalCarrito` returns the sum, over the entries of that user only, of
quantity times the unit price of the product. -/
theorem calcularTotalCarrito_eq_suma (db : BaseDatos) (u : Nat)
    (hkey : (db.productos.map (fun p => p.producto_id)).Nodup)
    (href : ∀ c ∈ db.carrito, c.usuario_id = u →
      ∃ p ∈ db.productos, p.producto_id = c.producto_id)
    (hne : entradasDe db u ≠ []) :
    calcularTotalCarrito db u = some (sumaCarrito db u) := by
  unfold calcularTotalCarrito sumaCarrito entradasDe precioUnitario
  rw [valores_carrito db.productos u hkey db.carrito href]
  apply sqlSum_eq_some
  intro hnil
  exact hne (List.map_eq_nil_iff.mp hnil)

/-- C1, on the example of the specification: the cart `{A: 2 @ 10, B: 1 @ 5}` of
user 42 totals 25, whatever user 7 holds. -/
theorem calcularTotalCarrito_eq_suma_witness :
    calcularTotalCarrito dbEjemploCarrito 42 = some (sumaCarrito dbEjemploCarrito 42)
      ∧ sumaCarrito dbEjemploCarrito 42 = 25 :=
  ⟨calcularTotalCarrito_eq_suma dbEjemploCarrito 42 (by decide) (by decide) (by decide),
    by decide⟩

/-- With no cart entry of the user the join selects no row and `SUM` is `NULL`. -/
theorem calcularTotalCarrito_none_of_sin_entradas (db : BaseDatos) (u : Nat)
    (hvacio : entradasDe db u = []) : calcularTotalCarrito db u = none := by
  unfold calcularTotalCarrito
  rw [sqlSum_eq_none_iff, List.map_eq_nil_iff, List.filter_eq_nil_iff]
  intro cp hcp hu
  have hc : cp.1 ∈ entradasDe db u := by
    unfold entradasDe
    exact List.mem_filter.mpr ⟨(mem_sqlJoin.mp hcp).1, hu⟩
  rw [hvacio] at hc
  exact absurd hc (List.not_mem_nil _)

/-- C2. For a user with no cart entry `calcularTotalCarrito` returns `null`
(`none`), which is not the number zero. -/
theorem calcularTotalCarrito_vacio (db : BaseDatos) (u : Nat)
    (hvacio : entradasDe db u = []) :
    calcularTotalCarrito db u = none ∧ calcularTotalCarrito db u ≠ some 0 := by
  have hnone := calcularTotalCarrito_none_of_sin_entradas db u hvacio
  exact ⟨hnone, by rw [hnone]; exact Option.noConfusion⟩

theorem calcularTotalCarrito_vacio_witness :
    calcularTotalCarrito dbEjemploCarrito 9 = none
      ∧ calcularTotalCarrito dbEjemploCarrito 9 ≠ some 0 :=
  calcularTotalCarrito_vacio dbEjemploCarrito 9 (by decide)

/-! ## Listings -/

theorem sorted_orderByDesc {α : Type} (key : α → Nat) (rows : List α) :
    (orderByDesc key rows).Sorted (DescBy key) :=
  List.sorted_insertionSort (DescBy key) rows

theorem perm_orderByDesc {α : Type} (key : α → Nat) (rows : List α) :
    (orderByDesc key rows).Perm rows :=
  List.perm_insertionSort (DescBy key) rows

theorem mem_orderByDesc {α : Type} (key : α → Nat) (rows : List α) (r : α) :
    r ∈ orderByDesc key rows ↔ r ∈ rows :=
  (perm_orderByDesc key rows).mem_iff

/-- A join in which every left row has exactly one partner keeps the left table. -/
theorem sqlJoin_map_fst_of_unique {α β : Type} (ys : List β) (cond : α → β → Bool) :
    ∀ (xs : List α), (∀ x ∈ xs, ∃ y, ys.filter (cond x) = [y]) →
      (sqlJoin xs ys cond).map Prod.fst = xs
  | [], _ => rfl
  | x :: xs, h => by
    obtain ⟨y, hy⟩ := h x (List.mem_cons_self x xs)
    rw [sqlJoin_cons, hy, List.map_append,
      sqlJoin_map_fst_of_unique ys cond xs (fun z hz => h z (List.mem_cons_of_mem x hz))]
    rfl

/-- C3 (evaluation of the code). `obtenerMisPedidos` has no `borrado_logico`
condition: in `dbConBorrado` it lists order 2, whose soft-delete flag is set,
while `obtenerPedidos` leaves that order out. -/
theorem obtenerMisPedidos_lista_borrado :
    (∃ r ∈ obtenerMisPedidos dbConBorrado 7,
        r.pedido.pedido_id = 2 ∧ r.pedido.borrado_logico = 1)
      ∧ ∀ r ∈ obtenerPedidos dbConBorrado, r.pedido.pedido_id ≠ 2 := by
  decide

/-- C4 as stated fails: in `dbEstadoAusente` the listing of user 7 is order 2
alone; it leaves out order 1 (its status has no row to join with), which is
owned by user 7 and strictly newer than the listed order 2. -/
theorem obtenerMisPedidos_no_reciente :
    (obtenerMisPedidos dbEstadoAusente 7).map (fun r => r.pedido.pedido_id) = [2]
      ∧ (∃ p ∈ dbEstadoAusente.pedidos, p.cliente_id = 7
          ∧ p ∉ (obtenerMisPedidos dbEstadoAusente 7).map (fun r => r.pedido)
          ∧ ∃ r ∈ obtenerMisPedidos dbEstadoAusente 7,
              r.pedido.fecha_pedido < p.fecha_pedido)
      ∧ ¬ EsListadoReciente dbEstadoAusente 7 (obtenerMisPedidos dbEstadoAusente 7) := by
  refine ⟨by decide, ?_, ?_⟩
  · exact ⟨⟨1, 7, 7, 99, 300, 2500, "tarjeta", 0⟩, by decide, by decide, by decide,
      ⟨⟨2, 7, 7, 1, 200, 900, "efectivo", 0⟩, "Pendiente"⟩, by decide, by decide⟩
  · intro h
    have h4 := h.2.2.2.2.2.1 ⟨1, 7, 7, 99, 300, 2500, "tarjeta", 0⟩ (by decide) (by decide)
      (by decide) ⟨⟨2, 7, 7, 1, 200, 900, "efectivo", 0⟩, "Pendiente"⟩ (by decide)
    revert h4
    decide

/-- Whatever order the store gives to rows with equal timestamps: the first 25
rows of any descending arrangement of the rows selected for user `u` form the
listing of the 25 most recent orders of `u`, provided status identifiers are
unique and every order of `u` references an existing status. -/
theorem esListadoReciente_take (db : BaseDatos) (u : Nat)
    (hkey : (db.estados_pedido.map (fun e => e.estado_id)).Nodup)
    (hfk : ∀ p ∈ db.pedidos, p.cliente_id = u →
      ∃ e ∈ db.estados_pedido, e.estado_id = p.estado_id)
    (full : List FilaMiPedido)
    (hperm : full.Perm
      (((sqlJoin db.pedidos db.estados_pedido (fun p e => p.estado_id == e.estado_id)).filter
          (fun pe => pe.1.cliente_id == u)).map
        (fun pe => { pedido := pe.1, estado_nombre := pe.2.estado_nombre })))
    (hsorted : full.Sorted (DescBy (fun r => r.pedido.fecha_pedido))) :
    EsListadoReciente db u (full.take 25) := by
  have hmem : ∀ r, r ∈ full ↔ ∃ pe : Pedido × EstadoPedido,
      (pe.1 ∈ db.pedidos ∧ pe.2 ∈ db.estados_pedido ∧ (pe.1.estado_id == pe.2.estado_id) = true)
        ∧ (pe.1.cliente_id == u) = true
        ∧ ({ pedido := pe.1, estado_nombre := pe.2.estado_nombre } : FilaMiPedido) = r := by
    intro r
    rw [hperm.mem_iff, List.mem_map]
    constructor
    · rintro ⟨pe, hpe, rfl⟩
      rw [List.mem_filter] at hpe
      exact ⟨pe, mem_sqlJoin.mp hpe.1, hpe.2, rfl⟩
    · rintro ⟨pe, hpe, hu, rfl⟩
      exact ⟨pe, List.mem_filter.mpr ⟨mem_sqlJoin.mpr hpe, hu⟩, rfl⟩
  have hfil : (sqlJoin db.pedidos db.estados_pedido
        (fun p e => p.estado_id == e.estado_id)).filter (fun pe => pe.1.cliente_id == u)
      = sqlJoin (pedidosDe db u) db.estados_pedido (fun p e => p.estado_id == e.estado_id) :=
    sqlJoin_filter_left db.estados_pedido (fun (p : Pedido) (e : EstadoPedido) =>
      p.estado_id == e.estado_id) (fun p => p.cliente_id == u) db.pedidos
  have huniq : (sqlJoin (pedidosDe db u) db.estados_pedido
      (fun p e => p.estado_id == e.estado_id)).map Prod.fst = pedidosDe db u := by
    apply sqlJoin_map_fst_of_unique
    intro p hp
    have hp2 := List.mem_filter.mp hp
    obtain ⟨y, _, _, hy⟩ := filter_key_unique (fun e : EstadoPedido => e.estado_id)
      db.estados_pedido hkey p.estado_id (hfk p hp2.1 (beq_iff_eq.mp hp2.2))
    exact ⟨y, hy⟩
  have hped : (full.map (fun r => r.pedido)).Perm (pedidosDe db u) := by
    refine (hperm.map _).trans ?_
    rw [List.map_map, hfil]
    have hcomp : ((fun r : FilaMiPedido => r.pedido) ∘
        fun pe : Pedido × EstadoPedido =>
          ({ pedido := pe.1, estado_nombre := pe.2.estado_nombre } : FilaMiPedido))
        = Prod.fst := rfl
    rw [hcomp, huniq]
  have hlen : full.length = (pedidosDe db u).length := by
    rw [← hped.length_eq, List.length_map]
  refine ⟨?_, List.length_take_le 25 _, ?_, ?_, ?_, ?_, ?_⟩
  · rw [List.length_take, hlen]
  · intro r hr
    obtain ⟨pe, hpe, hu, rfl⟩ := (hmem r).mp (List.mem_of_mem_take hr)
    exact ⟨hpe.1, beq_iff_eq.mp hu⟩
  · exact List.Pairwise.sublist (List.take_sublist 25 _) hsorted
  · refine ⟨(full.drop 25).map (fun r => r.pedido), ?_, ?_⟩
    · rw [← List.map_append, List.take_append_drop]
      exact hped
    · intro r hr p hp
      obtain ⟨r2, hr2, rfl⟩ := List.mem_map.mp hp
      exact hsorted.rel_of_mem_take_of_mem_drop hr hr2
  · intro p hp hpu hout r hr
    obtain ⟨e, he, hek⟩ := hfk p hp hpu
    have hrow : ({ pedido := p, estado_nombre := e.estado_nombre } : FilaMiPedido) ∈ full := by
      rw [hmem]
      exact ⟨(p, e), ⟨hp, he, beq_iff_eq.mpr hek.symm⟩, beq_iff_eq.mpr hpu, rfl⟩
    rw [← List.take_append_drop 25 full, List.mem_append] at hrow
    rcases hrow with htake | hdrop
    · exact absurd (List.mem_map_of_mem (fun r : FilaMiPedido => r.pedido) htake) hout
    · exact hsorted.rel_of_mem_take_of_mem_drop hr hdrop
  · intro r hr
    obtain ⟨pe, hpe, _, rfl⟩ := (hmem r).mp (List.mem_of_mem_take hr)
    exact ⟨pe.2, hpe.2.1, (beq_iff_eq.mp hpe.2.2).symm, rfl⟩

/-- C4, amended. When status identifiers are unique and every order of user `u`
references an existing status, `obtenerMisPedidos db u` is the listing of the
25 most recent orders of `u`: 25 rows, or all the orders of `u` when these are
fewer, each an order owned by `u` and listed as often as the store holds it, in
descending order of creation timestamp, no order of `u` left out being strictly
newer than a listed one. -/
theorem obtenerMisPedidos_reciente (db : BaseDatos) (u : Nat)
    (hkey : (db.estados_pedido.map (fun e => e.estado_id)).Nodup)
    (hfk : ∀ p ∈ db.pedidos, p.cliente_id = u →
      ∃ e ∈ db.estados_pedido, e.estado_id = p.estado_id) :
    EsListadoReciente db u (obtenerMisPedidos db u) := by
  unfold obtenerMisPedidos
  rw [List.drop_zero]
  exact esListadoReciente_take db u hkey hfk _ (perm_orderByDesc _ _) (sorted_orderByDesc _ _)

/-- C4, amended, on a store where user 7 has 27 orders: the listing has 25 rows
and leaves out the two oldest orders. -/
theorem obtenerMisPedidos_reciente_witness :
    EsListadoReciente dbMuchosPedidos 7 (obtenerMisPedidos dbMuchosPedidos 7)
      ∧ (obtenerMisPedidos dbMuchosPedidos 7).length = 25
      ∧ (obtenerMisPedidos dbMuchosPedidos 7).map (fun r => r.pedido.pedido_id)
          = (List.range 25).map (fun i => 27 - i) :=
  ⟨obtenerMisPedidos_reciente dbMuchosPedidos 7 (by decide) (by decide), by decide, by decide⟩

/-- C5. When user and status identifiers are unique and every order references
an existing user and an existing status, the orders listed by `obtenerPedidos`
are the orders whose soft-delete flag is `0`, each exactly once, and the rows
are sorted by creation timestamp, newest first. -/
theorem obtenerPedidos_exacto (db : BaseDatos)
    (hku : (db.usuarios.map (fun u => u.usuario_id)).Nodup)
    (hke : (db.estados_pedido.map (fun e => e.estado_id)).Nodup)
    (hfku : ∀ p ∈ db.pedidos, ∃ u ∈ db.usuarios, u.usuario_id = p.usuario_id)
    (hfke : ∀ p ∈ db.pedidos, ∃ e ∈ db.estados_pedido, e.estado_id = p.estado_id) :
    ((obtenerPedidos db).map (fun r => r.pedido)).Perm
        (db.pedidos.filter (fun p => p.borrado_logico == 0))
      ∧ (obtenerPedidos db).Sorted (DescBy (fun r => r.pedido.fecha_pedido)) := by
  refine ⟨?_, sorted_orderByDesc _ _⟩
  unfold obtenerPedidos
  refine ((perm_orderByDesc _ _).map _).trans ?_
  have hinner : (sqlJoin db.pedidos db.usuarios
      (fun p u => p.usuario_id == u.usuario_id)).map Prod.fst = db.pedidos := by
    apply sqlJoin_map_fst_of_unique
    intro p hp
    obtain ⟨y, _, _, hy⟩ := filter_key_unique (fun u : Usuario => u.usuario_id) db.usuarios hku
      p.usuario_id (hfku p hp)
    exact ⟨y, hy⟩
  have houter : (sqlJoin
      (sqlJoin db.pedidos db.usuarios (fun p u => p.usuario_id == u.usuario_id))
      db.estados_pedido (fun pu e => pu.1.estado_id == e.estado_id)).map Prod.fst
      = sqlJoin db.pedidos db.usuarios (fun p u => p.usuario_id == u.usuario_id) := by
    apply sqlJoin_map_fst_of_unique
    intro pu hpu
    obtain ⟨y, _, _, hy⟩ := filter_key_unique (fun e : EstadoPedido => e.estado_id)
      db.estados_pedido hke pu.1.estado_id (hfke pu.1 (mem_sqlJoin.mp hpu).1)
    exact ⟨y, hy⟩
  rw [List.map_map]
  have hproj : ∀ (rows : List ((Pedido × Usuario) × EstadoPedido)),
      (rows.filter (fun pue => pue.1.1.borrado_logico == 0)).map (fun pue => pue.1.1)
        = ((rows.map Prod.fst).map Prod.fst).filter (fun p => p.borrado_logico == 0) := by
    intro rows
    rw [List.map_map, List.filter_map]
    rfl
  have hgoal := hproj (sqlJoin
      (sqlJoin db.pedidos db.usuarios (fun p u => p.usuario_id == u.usuario_id))
      db.estados_pedido (fun pu e => pu.1.estado_id == e.estado_id))
  rw [houter, hinner] at hgoal
  rw [← hgoal]
  exact List.Perm.refl _

theorem obtenerPedidos_exacto_witness :
    ((obtenerPedidos dbConBorrado).map (fun r => r.pedido)).Perm
        (dbConBorrado.pedidos.filter (fun p => p.borrado_logico == 0))
      ∧ (obtenerPedidos dbConBorrado).Sorted (DescBy (fun r => r.pedido.fecha_pedido)) :=
  obtenerPedidos_exacto dbConBorrado (by decide) (by decide) (by decide) (by decide)

/-! ## Order creation -/

/-- When both optional texts are strings or absent and the first row of the
first result set carries a truthy `pedido_id`, that value is returned. -/
theorem crearPedidoConSP_ok (d n dt nt : ValorJS) (fila : FilaSP) (filas : List FilaSP)
    (resto : List (List FilaSP)) (hd : trimOpcional d = .ok dt) (hn : trimOpcional n = .ok nt)
    (hid : fila.pedido_id.esVerdadero = true) :
    crearPedidoConSP d n (.ok ((fila :: filas) :: resto)) = .ok fila.pedido_id := by
  simp [crearPedidoConSP, hd, hn, hid, bind, Except.bind, pure, Except.pure]

/-- When the first row of the first result set has a falsy `pedido_id` (absent,
`null`, `0`), the call fails with the domain error. -/
theorem crearPedidoConSP_sin_id (d n dt nt : ValorJS) (fila : FilaSP) (filas : List FilaSP)
    (resto : List (List FilaSP)) (hd : trimOpcional d = .ok dt) (hn : trimOpcional n = .ok nt)
    (hid : fila.pedido_id.esVerdadero = false) :
    crearPedidoConSP d n (.ok ((fila :: filas) :: resto))
      = .error (.nuevoError mensajeNoCreado) := by
  simp [crearPedidoConSP, hd, hn, hid, bind, Except.bind, throw, throwThe,
    MonadExceptOf.throw]

/-- C6 (evaluation of the code). When the first result set of the procedure is
empty, `resultado` is `undefined` and reading `resultado.pedido_id` throws a
`TypeError`; the domain error "No se pudo crear el pedido" is not reached. -/
theorem crearPedidoConSP_conjunto_vacio :
    crearPedidoConSP (.cadena "Av. Juarez 10") .indefinido (.ok [[]]) = .error .typeError
      ∧ crearPedidoConSP (.cadena "Av. Juarez 10") .indefinido (.ok [[]])
          ≠ .error (.nuevoError mensajeNoCreado) := by
  constructor
  · rfl
  · intro h
    cases h

/-! ## Updates -/

/-- Membership in the listing of `obtenerPedidos`: the order is a row of
`pedidos` whose soft-delete flag is `0`. -/
theorem pedido_of_mem_obtenerPedidos (db : BaseDatos) (r : FilaPedido)
    (hr : r ∈ obtenerPedidos db) : r.pedido ∈ db.pedidos ∧ r.pedido.borrado_logico = 0 := by
  unfold obtenerPedidos at hr
  rw [mem_orderByDesc, List.mem_map] at hr
  obtain ⟨pue, hpue, rfl⟩ := hr
  rw [List.mem_filter] at hpue
  exact ⟨(mem_sqlJoin.mp (mem_sqlJoin.mp hpue.1).1).1, beq_iff_eq.mp hpue.2⟩

theorem forall₂_map_right {α : Type} (f : α → α) (R : α → α → Prop)
    (h : ∀ a, R a (f a)) : ∀ l : List α, List.Forall₂ R l (l.map f)
  | [] => List.Forall₂.nil
  | a :: l => List.Forall₂.cons (h a) (forall₂_map_right f R h l)

/-- C7. Soft-deleting an order twice leaves the store in the same state as
soft-deleting it once, and the flag remains set: in that state every order of
the store with that identifier is the same row with `borrado_logico = 1`, and
every other order is unchanged. -/
theorem borrarPedidoLogico_idempotente (db : BaseDatos) (pedido_id : Nat) :
    borrarPedidoLogico (borrarPedidoLogico db pedido_id) pedido_id
        = borrarPedidoLogico db pedido_id
      ∧ List.Forall₂
          (fun p q => if p.pedido_id = pedido_id then q = { p with borrado_logico := 1 }
            else q = p)
          db.pedidos (borrarPedidoLogico (borrarPedidoLogico db pedido_id) pedido_id).pedidos
      ∧ (∀ q ∈ (borrarPedidoLogico (borrarPedidoLogico db pedido_id) pedido_id).pedidos,
          q.pedido_id = pedido_id → q.borrado_logico = 1)
      ∧ ∀ p ∈ db.pedidos, p.pedido_id = pedido_id →
          { p with borrado_logico := 1 }
            ∈ (borrarPedidoLogico (borrarPedidoLogico db pedido_id) pedido_id).pedidos := by
  have hidem : borrarPedidoLogico (borrarPedidoLogico db pedido_id) pedido_id
      = borrarPedidoLogico db pedido_id := by
    unfold borrarPedidoLogico
    simp only [List.map_map]
    congr 1
    apply List.map_congr_left
    intro p _
    by_cases hp : p.pedido_id = pedido_id <;> simp [hp]
  rw [hidem]
  refine ⟨rfl, ?_, ?_, ?_⟩
  · apply forall₂_map_right
    intro p
    by_cases hp : p.pedido_id = pedido_id <;> simp [hp]
  · intro q hq hid
    simp only [borrarPedidoLogico, List.mem_map] at hq
    obtain ⟨p, _, hp⟩ := hq
    by_cases hpid : p.pedido_id = pedido_id
    · simp [hpid] at hp
      rw [← hp]
    · simp [hpid] at hp
      rw [← hp] at hid
      exact absurd hid hpid
  · intro p hp hid
    simp only [borrarPedidoLogico, List.mem_map]
    exact ⟨p, hp, by simp [hid]⟩

/-- C7 on `dbConBorrado`: after two soft deletes of order 1 the store is as
after one, and order 1 carries the flag. -/
theorem borrarPedidoLogico_idempotente_witness :
    borrarPedidoLogico (borrarPedidoLogico dbConBorrado 1) 1 = borrarPedidoLogico dbConBorrado 1
      ∧ (⟨1, 7, 7, 1, 100, 2500, "tarjeta", 1⟩ : Pedido)
          ∈ (borrarPedidoLogico (borrarPedidoLogico dbConBorrado 1) 1).pedidos :=
  ⟨(borrarPedidoLogico_idempotente dbConBorrado 1).1,
    (borrarPedidoLogico_idempotente dbConBorrado 1).2.2.2 ⟨1, 7, 7, 1, 100, 2500, "tarjeta", 0⟩
      (by decide) rfl⟩

/-- C8. `borrarPedidoLogico db id` keeps the rows of `pedidos` in place: a row
with identifier `id` becomes the same row with `borrado_logico = 1`, any other
row is unchanged; every other table, the line items included, is unchanged;
and afterwards `obtenerPedidos` lists no order with identifier `id`. -/
theorem borrarPedidoLogico_marco (db : BaseDatos) (pedido_id : Nat) :
    List.Forall₂
        (fun p q => if p.pedido_id = pedido_id then q = { p with borrado_logico := 1 } else q = p)
        db.pedidos (borrarPedidoLogico db pedido_id).pedidos
      ∧ (borrarPedidoLogico db pedido_id).pedido_productos = db.pedido_productos
      ∧ (borrarPedidoLogico db pedido_id).usuarios = db.usuarios
      ∧ (borrarPedidoLogico db pedido_id).estados_pedido = db.estados_pedido
      ∧ (borrarPedidoLogico db pedido_id).productos = db.productos
      ∧ (borrarPedidoLogico db pedido_id).carrito = db.carrito
      ∧ ∀ r ∈ obtenerPedidos (borrarPedidoLogico db pedido_id),
          r.pedido.pedido_id ≠ pedido_id := by
  refine ⟨?_, rfl, rfl, rfl, rfl, rfl, ?_⟩
  · apply forall₂_map_right
    intro p
    by_cases hp : p.pedido_id = pedido_id <;> simp [hp]
  · intro r hr hid
    obtain ⟨hmem, hflag⟩ := pedido_of_mem_obtenerPedidos _ r hr
    simp only [borrarPedidoLogico, List.mem_map] at hmem
    obtain ⟨p, _, hp⟩ := hmem
    by_cases hpid : p.pedido_id = pedido_id
    · simp [hpid] at hp
      rw [← hp] at hflag
      simp at hflag
    · simp [hpid] at hp
      rw [← hp] at hid
      exact hpid hid

/-- C9. `actualizarEstadoPedido db id e` keeps the rows of `pedidos` in place: a
row with identifier `id` becomes the same row with `estado_id = e`, whatever its
status was, any other row is unchanged; every other table is unchanged. -/
theorem actualizarEstadoPedido_marco (db : BaseDatos) (pedido_id estado_id : Nat) :
    List.Forall₂
        (fun p q => if p.pedido_id = pedido_id then q = { p with estado_id := estado_id }
          else q = p)
        db.pedidos (actualizarEstadoPedido db pedido_id estado_id).pedidos
      ∧ (∀ q ∈ (actualizarEstadoPedido db pedido_id estado_id).pedidos,
          q.pedido_id = pedido_id → q.estado_id = estado_id)
      ∧ (actualizarEstadoPedido db pedido_id estado_id).pedido_productos = db.pedido_productos
      ∧ (actualizarEstadoPedido db pedido_id estado_id).usuarios = db.usuarios
      ∧ (actualizarEstadoPedido db pedido_id estado_id).estados_pedido = db.estados_pedido
      ∧ (actualizarEstadoPedido db pedido_id estado_id).productos = db.productos
      ∧ (actualizarEstadoPedido db pedido_id estado_id).carrito = db.carrito := by
  refine ⟨?_, ?_, rfl, rfl, rfl, rfl, rfl⟩
  · apply forall₂_map_right
    intro p
    by_cases hp : p.pedido_id = pedido_id <;> simp [hp]
  · intro q hq hid
    simp only [actualizarEstadoPedido, List.mem_map] at hq
    obtain ⟨p, _, hp⟩ := hq
    by_cases hpid : p.pedido_id = pedido_id
    · simp [hpid] at hp
      rw [← hp]
    · simp [hpid] at hp
      rw [← hp] at hid
      exact absurd hid hpid

/-- C10. `limpiarCarrito db u` leaves no cart entry of user `u`, keeps the cart
entries of every other user and every other table unchanged, and afterwards
`calcularTotalCarrito` for `u` returns `null`. -/
theorem limpiarCarrito_marco (db : BaseDatos) (u : Nat) :
    entradasDe (limpiarCarrito db u) u = []
      ∧ (∀ v, v ≠ u → entradasDe (limpiarCarrito db u) v = entradasDe db v)
      ∧ (limpiarCarrito db u).pedidos = db.pedidos
      ∧ (limpiarCarrito db u).pedido_productos = db.pedido_productos
      ∧ (limpiarCarrito db u).productos = db.productos
      ∧ (limpiarCarrito db u).usuarios = db.usuarios
      ∧ (limpiarCarrito db u).estados_pedido = db.estados_pedido
      ∧ calcularTotalCarrito (limpiarCarrito db u) u = none := by
  have hvacio : entradasDe (limpiarCarrito db u) u = [] := by
    simp only [entradasDe, limpiarCarrito, List.filter_filter]
    rw [List.filter_eq_nil_iff]
    intro c _
    simp
  refine ⟨hvacio, ?_, rfl, rfl, rfl, rfl, rfl,
    calcularTotalCarrito_none_of_sin_entradas _ u hvacio⟩
  intro v hv
  simp only [entradasDe, limpiarCarrito, List.filter_filter]
  apply List.filter_congr
  intro c _
  by_cases hc : c.usuario_id = v
  · simp [hc, hv]
  · simp [hc]

/-! ## Client order view -/

theorem intentar_pure_ok {α : Type} (cuerpo : Except ExcepcionJS α) (a : α) :
    ∃ x, intentar cuerpo (fun _ => pure a) = .ok x := by
  cases cuerpo with
  | ok x => exact ⟨x, rfl⟩
  | error e => exact ⟨a, rfl⟩

theorem obtenerProductosHTML_ok (textoNumero : Int → String)
    (fetch : String → Option RespuestaHTTP) (pedidoId : Json) :
    ∃ html, obtenerProductosHTML textoNumero fetch pedidoId = .ok html :=
  intentar_pure_ok _ _

/-- The button markup and the replacement text differ, whatever the identifier. -/
theorem botonCancelar_ne_span (textoNumero : Int → String) (pedido_id : Json) :
    botonCancelar textoNumero pedido_id ≠ .ok spanNoCancelable := by
  intro h
  unfold botonCancelar at h
  cases hid : pedido_id.aCadena textoNumero with
  | error e => simp [hid, bind, Except.bind] at h
  | ok texto =>
    simp only [hid, bind, Except.bind, pure, Except.pure, Except.ok.injEq] at h
    have h2 := congrArg (fun s : String => s.data.take 2) h
    simp [spanNoCancelable, String.data_append] at h2

/-- The action cell is the cancel button for the status identifiers 1 and 2,
and the text "No cancelable" exactly for every other value. -/
theorem celdaAccion_iff (textoNumero : Int → String) (pedido_id estado_id : Json) :
    ((estado_id = .numero 1 ∨ estado_id = .numero 2) →
        celdaAccion textoNumero pedido_id estado_id = botonCancelar textoNumero pedido_id)
      ∧ (celdaAccion textoNumero pedido_id estado_id = .ok spanNoCancelable
        ↔ ¬ (estado_id = .numero 1 ∨ estado_id = .numero 2)) := by
  have hne := botonCancelar_ne_span textoNumero pedido_id
  have hcond : (estado_id.igualANumero 1 || estado_id.igualANumero 2) = true
      ↔ (estado_id = .numero 1 ∨ estado_id = .numero 2) := by
    cases estado_id <;> simp [Json.igualANumero]
  have hdef : celdaAccion textoNumero pedido_id estado_id
      = if (estado_id.igualANumero 1 || estado_id.igualANumero 2) = true
        then botonCancelar textoNumero pedido_id else .ok spanNoCancelable := rfl
  rw [hdef]
  by_cases hc : (estado_id.igualANumero 1 || estado_id.igualANumero 2) = true
  · rw [if_pos hc]
    exact ⟨fun _ => rfl, fun h => absurd h hne, fun h => absurd (hcond.mp hc) h⟩
  · rw [if_neg hc]
    exact ⟨fun h => absurd (hcond.mpr h) hc, fun _ => fun h => hc (hcond.mpr h), fun _ => rfl⟩

theorem prop_eq_propOpcional (p : Json) (k : String) (hn : p ≠ .nulo) (hi : p ≠ .indefinido) :
    p.prop k = .ok (p.propOpcional k) := by
  cases p <;> simp_all [Json.prop, Json.propOpcional]

/-- A row that is rendered ends with the action cell of its order. -/
theorem filaHTML_accion (textoNumero : Int → String) (fetch : String → Option RespuestaHTTP)
    (fechaLocal : Json → String) (p : Json) (fila : String)
    (h : filaHTML textoNumero fetch fechaLocal p = .ok fila) :
    ∃ datos accion,
      celdaAccion textoNumero (p.propOpcional "pedido_id") (p.propOpcional "estado_id")
          = .ok accion
        ∧ fila = datos ++ "<td>" ++ accion ++ "</td></tr>" := by
  have hn : p ≠ .nulo := by
    intro hp
    subst hp
    simp [filaHTML, Json.prop, bind, Except.bind] at h
  have hi : p ≠ .indefinido := by
    intro hp
    subst hp
    simp [filaHTML, Json.prop, bind, Except.bind] at h
  obtain ⟨html, hhtml⟩ := obtenerProductosHTML_ok textoNumero fetch (p.propOpcional "pedido_id")
  simp only [filaHTML, prop_eq_propOpcional p _ hn hi, hhtml, bind, Except.bind, pure,
    Except.pure] at h
  cases hd : celdasDatos textoNumero fechaLocal (p.propOpcional "pedido_id")
      (p.propOpcional "fecha_pedido") (p.propOpcional "estado_nombre")
      (p.propOpcional "notas") html with
  | error e => simp [hd] at h
  | ok datos =>
    cases ha : celdaAccion textoNumero (p.propOpcional "pedido_id")
        (p.propOpcional "estado_id") with
    | error e => simp [hd, ha] at h
    | ok accion =>
      simp only [hd, ha, Except.ok.injEq] at h
      exact ⟨datos, accion, rfl, h.symm⟩

/-- The action cell of order 5 in status 1 is its cancel button, that of order 6
in status 3 is the text "No cancelable". -/
theorem celdaAccion_ejemplo :
    celdaAccion textoDecimal (.numero 5) (.numero 1)
        = .ok "<button class=\"btn btn-sm btn-danger\" onclick=\"cancelarPedido(5)\">Cancelar</button>"
      ∧ celdaAccion textoDecimal (.numero 6) (.numero 3) = .ok spanNoCancelable :=
  ⟨rfl, rfl⟩

set_option maxRecDepth 8000

/-- C11 (evaluation of the code). The order `pedidoConBotonEnNotas` has status 3
and notes that are the markup of a cancel button.  Its row puts the notes into
the markup unescaped: the row holds the Cancel button of order 6 in the notes
cell next to "No cancelable" in the action cell, and the function the button
calls sends the cancel request without a test of the status. -/
theorem cargarPedidosUsuario_boton_en_notas :
    (pedidoConBotonEnNotas.propOpcional "estado_id").igualANumero 3 = true
      ∧ cargarPedidosUsuario textoDecimal (some ⟨true, some (.arreglo [pedidoConBotonEnNotas])⟩)
          (fun _ => none) (fun _ => "1/5/2025") (some []) = .ok (some [filaConBotonEnNotas])
      ∧ botonCancelar textoDecimal (.numero 6) = .ok botonPedidoSeis
      ∧ filaConBotonEnNotas
          = "<tr><td>#6</td><td>1/5/2025</td><td>Enviado</td><td>" ++ botonPedidoSeis
            ++ "</td><td><ul class=\"list-unstyled small\">" ++ itemErrorProductos
            ++ "</ul></td><td>" ++ spanNoCancelable ++ "</td></tr>"
      ∧ Cliente.cancelarPedido textoDecimal true (fun _ => none) (.numero 6)
          = [.peticionPut "/pedidos/6/cancelar", .alerta alertaErrorInesperado] :=
  ⟨by decide, rfl, rfl, rfl, by decide⟩

/-- C12. `obtenerProductosHTML` always resolves with a string, and with the
inline error item when the request rejects, the status is not OK, the body is
not JSON or the body has no `pedidos` array; `cargarPedidosUsuario` always
resolves, and when the orders request rejects, has a status that is not OK or a
body that is not JSON, the table holds the inline error row alone. -/
theorem vista_pedidos_sin_rechazo (textoNumero : Int → String)
    (fetch : String → Option RespuestaHTTP) (fechaLocal : Json → String) :
    (∀ pedidoId, ∃ html, obtenerProductosHTML textoNumero fetch pedidoId = .ok html)
      ∧ (∀ pedidoId texto, pedidoId.aCadena textoNumero = .ok texto →
          (fetch ("/pedidos/traerinfopedido/" ++ texto) = none
            ∨ ∃ r, fetch ("/pedidos/traerinfopedido/" ++ texto) = some r
                ∧ (r.ok = false ∨ r.json = none
                  ∨ ∃ j, r.json = some j ∧ ∀ ps, j.prop "pedidos" ≠ .ok (.arreglo ps))) →
          obtenerProductosHTML textoNumero fetch pedidoId = .ok itemErrorProductos)
      ∧ (∀ fetchMis tabla, ∃ t,
          cargarPedidosUsuario textoNumero fetchMis fetch fechaLocal tabla = .ok t)
      ∧ (∀ fetchMis contenido,
          (fetchMis = none ∨ ∃ r, fetchMis = some r ∧ (r.ok = false ∨ r.json = none)) →
          cargarPedidosUsuario textoNumero fetchMis fetch fechaLocal (some contenido)
            = .ok (some [filaErrorPedidos])) := by
  refine ⟨obtenerProductosHTML_ok textoNumero fetch, ?_, ?_, ?_⟩
  · intro pedidoId texto htexto h
    rcases h with h | ⟨r, hr, h⟩
    · simp [obtenerProductosHTML, intentar, htexto, h, bind, Except.bind, throw, throwThe,
        MonadExceptOf.throw, pure, Except.pure]
    · rcases h with hok | hjson | ⟨j, hj, hps⟩
      · cases hjs : r.json with
        | none =>
          simp [obtenerProductosHTML, intentar, htexto, hr, hjs, bind, Except.bind, throw,
            throwThe, MonadExceptOf.throw, pure, Except.pure]
        | some j =>
          cases hp : j.prop "pedidos" <;>
            simp [obtenerProductosHTML, intentar, htexto, hr, hjs, hp, hok, bind, Except.bind,
              throw, throwThe, MonadExceptOf.throw, pure, Except.pure]
      · simp [obtenerProductosHTML, intentar, htexto, hr, hjson, bind, Except.bind, throw,
          throwThe, MonadExceptOf.throw, pure, Except.pure]
      · cases hp : j.prop "pedidos" with
        | error e =>
          simp [obtenerProductosHTML, intentar, htexto, hr, hj, hp, bind, Except.bind, throw,
            throwThe, MonadExceptOf.throw, pure, Except.pure]
        | ok v =>
          cases hrok : r.ok <;> cases v <;>
            first
              | exact absurd hp (hps _)
              | simp [obtenerProductosHTML, intentar, htexto, hr, hj, hp, hrok, bind,
                  Except.bind, throw, throwThe, MonadExceptOf.throw, pure, Except.pure]
  · intro fetchMis tabla
    cases tabla with
    | none => exact ⟨none, rfl⟩
    | some contenido => exact intentar_pure_ok _ _
  · intro fetchMis contenido h
    rcases h with h | ⟨r, hr, hok | hjson⟩
    · simp [cargarPedidosUsuario, intentar, h, bind, Except.bind, throw, throwThe,
        MonadExceptOf.throw, pure, Except.pure]
    · simp [cargarPedidosUsuario, intentar, hr, hok, bind, Except.bind, throw, throwThe,
        MonadExceptOf.throw, pure, Except.pure]
    · cases hrok : r.ok <;>
        simp [cargarPedidosUsuario, intentar, hr, hjson, hrok, bind, Except.bind, throw,
          throwThe, MonadExceptOf.throw, pure, Except.pure]

/-- C12 on a network failure: both requests reject, the item list is the
inline error item and the table holds the inline error row alone. -/
theorem vista_pedidos_sin_rechazo_witness :
    obtenerProductosHTML textoDecimal (fun _ => none) (.numero 5) = .ok itemErrorProductos
      ∧ cargarPedidosUsuario textoDecimal none (fun _ => none) (fun _ => "1/5/2025")
          (some ["<tr></tr>"]) = .ok (some [filaErrorPedidos]) :=
  ⟨(vista_pedidos_sin_rechazo textoDecimal (fun _ => none) (fun _ => "1/5/2025")).2.1
      (.numero 5) "5" rfl (Or.inl rfl),
    (vista_pedidos_sin_rechazo textoDecimal (fun _ => none) (fun _ => "1/5/2025")).2.2.2 none
      ["<tr></tr>"] (Or.inl rfl)⟩

/-! ## Session guard -/

theorem tokenExpirado_ok (nav : Navegador) (ahora : Int) (token : String) :
    ∃ b, tokenExpirado nav ahora token = .ok b :=
  intentar_pure_ok _ _

/-- A token whose payload cannot be decoded is reported as expired. -/
theorem tokenExpirado_mal_formado (nav : Navegador) (ahora : Int) (token : String)
    (e : ExcepcionJS) (hdec : decodificarPayload nav token = .error e) :
    tokenExpirado nav ahora token = .ok true := by
  simp [tokenExpirado, intentar, hdec, bind, Except.bind, pure, Except.pure]

/-- A payload without `exp` is reported as expired. -/
theorem tokenExpirado_sin_exp (nav : Navegador) (ahora : Int) (token : String) (payload : Json)
    (hdec : decodificarPayload nav token = .ok payload)
    (hexp : payload.prop "exp" = .ok .indefinido ∨ ∃ e, payload.prop "exp" = .error e) :
    tokenExpirado nav ahora token = .ok true := by
  rcases hexp with h | ⟨e, h⟩ <;>
    simp [tokenExpirado, intentar, hdec, h, Json.esVerdadero, bind, Except.bind, pure,
      Except.pure]

/-- With a numeric `exp` and a current second after the epoch, the token is
reported as expired exactly when `exp` is earlier than the current second. -/
theorem tokenExpirado_numero (nav : Navegador) (ahora : Int) (token : String) (payload : Json)
    (e : Int) (hdec : decodificarPayload nav token = .ok payload)
    (hexp : payload.prop "exp" = .ok (.numero e)) (hahora : 0 < ahora) :
    tokenExpirado nav ahora token = .ok (decide (e < ahora)) := by
  by_cases h0 : e = 0
  · subst h0
    simp [tokenExpirado, intentar, hdec, hexp, Json.esVerdadero, bind, Except.bind, pure,
      Except.pure, hahora]
  · simp [tokenExpirado, intentar, hdec, hexp, Json.esVerdadero, Json.menorQue, Json.aNumero,
      bind, Except.bind, pure, Except.pure, h0]

/-- C13 (evaluation of the code). The payload of `tokenExpTexto` decodes to an
object whose `exp` is the text `abc`; `exp` is truthy and `exp < ahora` compares
with `NaN`, so `tokenExpirado` answers `false` for this malformed token. -/
theorem tokenExpirado_exp_no_numerico :
    decodificarPayload navegadorEjemplo tokenExpTexto = .ok (.objeto [("exp", .cadena "abc")])
      ∧ tokenExpirado navegadorEjemplo 1700000000 tokenExpTexto = .ok false :=
  ⟨rfl, rfl⟩

/-- For a stored token whose payload carries an integer `exp`: when at most 60
seconds remain the only effect is the immediate call of `renovarToken`; when
more remain and the numbers stay in the exact range, the only effect is one
call of `setTimeout` with `(exp - ahora - 60) * 1000` milliseconds; and the
timer applies that delay when it is below `2^31`. -/
theorem programarRenovacionToken_entero (nav : Navegador) (ahora e : Int)
    (t : String) (payload : Json) (ht : t ≠ "")
    (hdec : decodificarPayload nav t = .ok payload)
    (hexp : payload.prop "exp" = .ok (.numero e)) :
    (e - ahora ≤ 60 → programarRenovacionToken nav ahora (some t) = [.renovarToken])
      ∧ (60 < e - ahora → e.natAbs ≤ enteroExacto → ahora.natAbs ≤ enteroExacto →
          (e - ahora - 60) * 1000 ≤ enteroExacto →
          programarRenovacionToken nav ahora (some t)
            = [.setTimeout (.milisegundos ((e - ahora - 60) * 1000))])
      ∧ (60 < e - ahora → (e - ahora - 60) * 1000 < 2147483648 →
          retardoTemporizador (.milisegundos ((e - ahora - 60) * 1000))
            = some ((e - ahora - 60) * 1000)) := by
  have hdef : programarRenovacionToken nav ahora (some t)
      = if (e - ahora - 60) * 1000 ≤ 0 then [.renovarToken]
        else if e.natAbs ≤ enteroExacto ∧ ahora.natAbs ≤ enteroExacto
            ∧ (e - ahora - 60) * 1000 ≤ enteroExacto then
          [.setTimeout (.milisegundos ((e - ahora - 60) * 1000))]
        else [.setTimeout .inexacto] := by
    simp [programarRenovacionToken, ht, hdec, hexp, Json.aNumero, bind, Except.bind]
  refine ⟨?_, ?_, ?_⟩
  · intro h
    rw [hdef, if_pos (by omega)]
  · intro h h1 h2 h3
    rw [hdef, if_neg (by omega), if_pos ⟨h1, h2, h3⟩]
  · intro h hlt
    have hpos : 0 < (e - ahora - 60) * 1000 := by omega
    have hmod : (e - ahora - 60) * 1000 % 4294967296 = (e - ahora - 60) * 1000 :=
      Int.emod_eq_of_lt (le_of_lt hpos) (by omega)
    simp only [retardoTemporizador, hmod]
    rw [if_neg (by omega), if_neg (by omega)]

/-- With 30 seconds left (`tokenPorExpirar` at the second 1700000000) the renewal
is requested at once and no timer is set. -/
theorem programarRenovacionToken_entero_ejemplo :
    programarRenovacionToken navegadorEjemplo 1700000000 (some tokenPorExpirar)
      = [.renovarToken] :=
  (programarRenovacionToken_entero navegadorEjemplo 1700000000 1700000030 tokenPorExpirar
    (.objeto [("exp", .numero 1700000030)]) (by decide) rfl rfl).1 (by decide)

/-- C14 (evaluation of the code). At the second 1700000000 the stored token
`tokenTreintaDias` expires in 30 days: the function calls `setTimeout` with
2591940000 milliseconds, a delay beyond the 32 bits a timer keeps, so the
timer applies the delay 0 and the renewal runs at once, not one minute before
the token expires. -/
theorem programarRenovacionToken_treinta_dias :
    decodificarPayload navegadorEjemplo tokenTreintaDias
        = .ok (.objeto [("exp", .numero 1702592000)])
      ∧ programarRenovacionToken navegadorEjemplo 1700000000 (some tokenTreintaDias)
          = [.setTimeout (.milisegundos 2591940000)]
      ∧ ((1702592000 : Int) - 1700000000 - 60) * 1000 = 2591940000
      ∧ retardoTemporizador (.milisegundos 2591940000) = some 0 :=
  ⟨rfl, by decide, by decide, by decide⟩

/-- C15 (evaluation of the code). With nothing stored, `sesionValida` returns
`null` (the value of `token`), which is not a boolean; with a stored token that
has not expired and an empty user object it returns `undefined`. -/
theorem sesionValida_no_booleano :
    sesionValida navegadorEjemplo 1700000000 none none = .ok .nulo
      ∧ sesionValida navegadorEjemplo 1700000000 (some tokenVigente) none = .ok .indefinido
      ∧ Json.tipo .nulo ≠ "boolean" ∧ Json.tipo .indefinido ≠ "boolean" :=
  ⟨rfl, rfl, by decide, by decide⟩

/-- Truthiness of the value of `sesionValida` when a token and a user object are
stored: it is truthy exactly when the token has not expired, `usuario_id` is
truthy, `rol` is a string, `permisos` has type `object` and `leer` is truthy
under `productos` or under `usuarios`. -/
theorem sesionValida_verdadero_iff (nav : Navegador) (ahora : Int) (t guardado : String)
    (usuario : Json) (ht : t ≠ "") (hg : guardado ≠ "")
    (hparse : nav.jsonParse guardado = some usuario)
    (hn : usuario ≠ .nulo) (hi : usuario ≠ .indefinido) :
    ∃ v, sesionValida nav ahora (some t) (some guardado) = .ok v
      ∧ (v.esVerdadero = true ↔
          tokenExpirado nav ahora t = .ok false
            ∧ (usuario.propOpcional "usuario_id").esVerdadero = true
            ∧ (usuario.propOpcional "rol").tipo = "string"
            ∧ (usuario.propOpcional "permisos").tipo = "object"
            ∧ ((((usuario.propOpcional "permisos").propOpcional "productos").propOpcional
                    "leer").esVerdadero = true
                ∨ (((usuario.propOpcional "permisos").propOpcional "usuarios").propOpcional
                    "leer").esVerdadero = true)) := by
  obtain ⟨b, hb⟩ := tokenExpirado_ok nav ahora t
  have hbt : (Json.booleano true).esVerdadero = true := rfl
  have hbf : (Json.booleano false).esVerdadero = false := rfl
  simp only [sesionValida, hg, ht, hparse, prop_eq_propOpcional usuario _ hn hi, hb, if_false,
    bind, Except.bind, pure, Except.pure]
  cases b with
  | true => exact ⟨.booleano false, rfl, by simp [hbf]⟩
  | false =>
    by_cases h1 : (usuario.propOpcional "usuario_id").esVerdadero = true
    · by_cases h2 : (usuario.propOpcional "rol").tipo = "string"
      · by_cases h3 : (usuario.propOpcional "permisos").tipo = "object"
        · by_cases h4 : (((usuario.propOpcional "permisos").propOpcional "productos").propOpcional
              "leer").esVerdadero = true
          · exact ⟨((usuario.propOpcional "permisos").propOpcional "productos").propOpcional
              "leer", by simp [h1, h2, h3, h4, hbt], by simp [h1, h2, h3, h4]⟩
          · exact ⟨((usuario.propOpcional "permisos").propOpcional "usuarios").propOpcional
              "leer", by simp [h1, h2, h3, h4, hbt], by simp [h1, h2, h3, h4]⟩
        · have h3b : ((usuario.propOpcional "permisos").tipo == "object") = false :=
            beq_eq_false_iff_ne.mpr h3
          exact ⟨.booleano false, by simp [h1, h2, h3b, hbf], by simp [h1, h2, h3, hbf]⟩
      · exact ⟨.booleano false, by simp [h1, h2, hbf], by simp [h1, h2, hbf]⟩
    · exact ⟨usuario.propOpcional "usuario_id", by simp [h1], by simp [h1]⟩

/-! ## Order router -/

/-- C16. In the order router the controllers of `GET /`, `POST /desde-carrito`
and `PUT /:id/cancelar` are invoked only after the permission check for
`pedidos` with `leer`, `crear` and `cancelar` respectively has passed, and those
of `POST /` and `POST /desde-carrito` only after `pedidoSchema` and
`validarResultados` have passed; for `POST /mis`, `POST /makepp` and
`GET /traerinfopedido/:id` the controller is the first handler invoked. -/
theorem router_guardas (pasa : Manejador → Bool) (id : String) (hid : id ≠ "") :
    despachar pasa "GET" []
        = (if pasa (.verificarPermiso "pedidos" "leer")
            then [.verificarPermiso "pedidos" "leer", .controlador "obtenerPedidos"]
            else [.verificarPermiso "pedidos" "leer"])
      ∧ (.controlador "crearPedidoDesdeCarrito" ∈ despachar pasa "POST" ["desde-carrito"]
          ↔ pasa (.verificarPermiso "pedidos" "crear") = true ∧ pasa .pedidoSchema = true
              ∧ pasa .validarResultados = true)
      ∧ (despachar pasa "POST" ["desde-carrito"]).head?
          = some (.verificarPermiso "pedidos" "crear")
      ∧ despachar pasa "PUT" [id, "cancelar"]
          = (if pasa (.verificarPermiso "pedidos" "cancelar")
              then [.verificarPermiso "pedidos" "cancelar", .controlador "cancelarPedido"]
              else [.verificarPermiso "pedidos" "cancelar"])
      ∧ (.controlador "crearPedido" ∈ despachar pasa "POST" []
          ↔ pasa .pedidoSchema = true ∧ pasa .validarResultados = true)
      ∧ (despachar pasa "POST" []).head? = some .pedidoSchema
      ∧ despachar pasa "POST" ["mis"] = [.controlador "obtenerMisPedidos"]
      ∧ despachar pasa "POST" ["makepp"] = [.controlador "crearPedidoProducto"]
      ∧ despachar pasa "GET" ["traerinfopedido", id] = [.controlador "getPedidoProducto"] := by
  have hid2 : (id != "") = true := by simpa using hid
  refine ⟨?_, ?_, ?_, ?_, ?_, ?_, ?_, ?_, ?_⟩
  · cases h : pasa (.verificarPermiso "pedidos" "leer") <;>
      simp [despachar, router, coincide, ejecutar, h]
  · cases h1 : pasa (.verificarPermiso "pedidos" "crear") <;>
      cases h2 : pasa .pedidoSchema <;> cases h3 : pasa .validarResultados <;>
        simp [despachar, router, coincide, ejecutar, h1, h2, h3]
  · cases h1 : pasa (.verificarPermiso "pedidos" "crear") <;>
      simp [despachar, router, coincide, ejecutar, h1]
  · cases h : pasa (.verificarPermiso "pedidos" "cancelar") <;>
      simp [despachar, router, coincide, ejecutar, h, hid2]
  · cases h2 : pasa .pedidoSchema <;> cases h3 : pasa .validarResultados <;>
      simp [despachar, router, coincide, ejecutar, h2, h3]
  · cases h2 : pasa .pedidoSchema <;>
      simp [despachar, router, coincide, ejecutar, h2]
  · simp [despachar, router, coincide, ejecutar]
  · simp [despachar, router, coincide, ejecutar]
  · simp [despachar, router, coincide, ejecutar, hid2]

theorem router_guardas_witness :
    despachar (fun _ => false) "GET" [] = [.verificarPermiso "pedidos" "leer"]
      ∧ despachar (fun _ => false) "PUT" ["15", "cancelar"]
          = [.verificarPermiso "pedidos" "cancelar"]
      ∧ despachar (fun _ => false) "GET" ["traerinfopedido", "15"]
          = [.controlador "getPedidoProducto"] :=
  ⟨(router_guardas (fun _ => false) "15" (by decide)).1,
    (router_guardas (fun _ => false) "15" (by decide)).2.2.2.1,
    (router_guardas (fun _ => false) "15" (by decide)).2.2.2.2.2.2.2.2⟩

/-! ## Cancellation -/

theorem find?_map_actualizar (pedido_id estado_id : Nat) :
    ∀ (ps : List Pedido),
      ((ps.map (fun p => if p.pedido_id == pedido_id then { p with estado_id := estado_id }
            else p)).find? (fun p => p.pedido_id == pedido_id)).map (fun p => p.estado_id)
        = ((ps.find? (fun p => p.pedido_id == pedido_id)).map (fun p => p.estado_id)).map
            (fun _ => estado_id)
  | [] => rfl
  | p :: ps => by
    by_cases hp : p.pedido_id = pedido_id
    · simp [List.find?_cons, hp]
    · simp only [List.map_cons, List.find?_cons]
      have hb : (p.pedido_id == pedido_id) = false := beq_eq_false_iff_ne.mpr hp
      simp only [hb, Bool.false_eq_true, if_false]
      exact find?_map_actualizar pedido_id estado_id ps

/-- After the status update the current status of the order, if the order
exists, is the new status. -/
theorem estadoActual_actualizar (db : BaseDatos) (pedido_id estado_id : Nat) :
    estadoActual (actualizarEstadoPedido db pedido_id estado_id) pedido_id
      = (estadoActual db pedido_id).map (fun _ => estado_id) :=
  find?_map_actualizar pedido_id estado_id db.pedidos

/-- C17. `cancelarPedido` succeeds exactly when the current status of the order
is 1 (PENDING) or 2 (PROCESSING), and then the status of the order is the
CANCELLED status; for any other status it fails with a conflict and the store,
the status of the order included, is unchanged. -/
theorem cancelarPedido_iff (estadoCancelado : Nat) (db : BaseDatos) (pedido_id : Nat) :
    ((cancelarPedido estadoCancelado db pedido_id).2 = .cancelado
        ↔ (estadoActual db pedido_id = some 1 ∨ estadoActual db pedido_id = some 2))
      ∧ ((estadoActual db pedido_id = some 1 ∨ estadoActual db pedido_id = some 2) →
          estadoActual (cancelarPedido estadoCancelado db pedido_id).1 pedido_id
            = some estadoCancelado)
      ∧ (¬ (estadoActual db pedido_id = some 1 ∨ estadoActual db pedido_id = some 2) →
          cancelarPedido estadoCancelado db pedido_id = (db, .conflicto)) := by
  by_cases h : estadoActual db pedido_id = some 1 ∨ estadoActual db pedido_id = some 2
  · have hdef : cancelarPedido estadoCancelado db pedido_id
        = (actualizarEstadoPedido db pedido_id estadoCancelado, .cancelado) := by
      unfold cancelarPedido
      rw [if_pos h]
    rw [hdef]
    refine ⟨⟨fun _ => h, fun _ => rfl⟩, ?_, fun hn => absurd h hn⟩
    intro _
    rw [estadoActual_actualizar]
    rcases h with h1 | h2
    · rw [h1]; rfl
    · rw [h2]; rfl
  · have hdef : cancelarPedido estadoCancelado db pedido_id = (db, .conflicto) := by
      unfold cancelarPedido
      rw [if_neg h]
    rw [hdef]
    have hno : (db, ResultadoCancelar.conflicto).2 ≠ ResultadoCancelar.cancelado := by
      intro hc
      cases hc
    exact ⟨⟨fun hc => absurd hc hno, fun hs => absurd hs h⟩, fun hs => absurd hs h,
      fun _ => rfl⟩

/-- C17 on `dbLineas`: order 1 (status 1) is cancelled to status 5, order 2
(status 3) is refused and the store is unchanged. -/
theorem cancelarPedido_iff_witness :
    estadoActual (cancelarPedido 5 dbLineas 1).1 1 = some 5
      ∧ cancelarPedido 5 dbLineas 2 = (dbLineas, .conflicto) :=
  ⟨(cancelarPedido_iff 5 dbLineas 1).2.1 (by decide),
    (cancelarPedido_iff 5 dbLineas 2).2.2 (by decide)⟩

/-! ## Line items -/

/-- The rows of `getPedidoProducto` when exactly one order carries the identifier. -/
theorem getPedidoProducto_eq (db : BaseDatos) (pedido_id : Nat) (p0 : Pedido)
    (hp0 : db.pedidos.filter (fun p => p.pedido_id == pedido_id) = [p0]) :
    getPedidoProducto db pedido_id
      = (sqlJoin ((db.pedido_productos.filter (fun pp => p0.pedido_id == pp.fk_pedidos)).map
            (fun pp => (p0, pp)))
          db.productos (fun ppp pr => pr.producto_id == ppp.2.fk_productos)).map
          (fun r =>
            { pedido_id := r.1.1.pedido_id,
              producto_id := r.2.producto_id,
              nombre_producto := r.2.nombre,
              precio := r.2.precio }) := by
  unfold getPedidoProducto
  have h1 := sqlJoin_filter_left db.productos
    (fun (ppp : Pedido × PedidoProducto) (pr : Producto) => pr.producto_id == ppp.2.fk_productos)
    (fun ppp => ppp.1.pedido_id == pedido_id)
    (sqlJoin db.pedidos db.pedido_productos (fun p pp => p.pedido_id == pp.fk_pedidos))
  have h2 := sqlJoin_filter_left db.pedido_productos
    (fun (p : Pedido) (pp : PedidoProducto) => p.pedido_id == pp.fk_pedidos)
    (fun p => p.pedido_id == pedido_id) db.pedidos
  rw [h1, h2, hp0, sqlJoin_cons, sqlJoin_nil, List.append_nil]

/-- C18. `crearPedidoProducto` appends the row `(fkPedidos, fkProductos)` to
`pedido_productos` and changes no other table; every row of a subsequent
`getPedidoProducto fkPedidos` belongs to order `fkPedidos`; and when order and
product identifiers are unique and that order and that product exist, the
listing has one more row than before, the new row carrying the identifier,
name and unit price of the product. -/
theorem crearPedidoProducto_marco (db : BaseDatos) (fkPedidos fkProductos : Nat) :
    (crearPedidoProducto db fkPedidos fkProductos).pedido_productos
        = db.pedido_productos ++ [⟨fkPedidos, fkProductos⟩]
      ∧ (crearPedidoProducto db fkPedidos fkProductos).pedidos = db.pedidos
      ∧ (crearPedidoProducto db fkPedidos fkProductos).productos = db.productos
      ∧ (crearPedidoProducto db fkPedidos fkProductos).carrito = db.carrito
      ∧ (crearPedidoProducto db fkPedidos fkProductos).usuarios = db.usuarios
      ∧ (crearPedidoProducto db fkPedidos fkProductos).estados_pedido = db.estados_pedido
      ∧ (∀ r ∈ getPedidoProducto (crearPedidoProducto db fkPedidos fkProductos) fkPedidos,
          r.pedido_id = fkPedidos)
      ∧ ((db.pedidos.map (fun p => p.pedido_id)).Nodup →
          (db.productos.map (fun p => p.producto_id)).Nodup →
          ∀ p0 ∈ db.pedidos, p0.pedido_id = fkPedidos →
          ∀ pr ∈ db.productos, pr.producto_id = fkProductos →
            getPedidoProducto (crearPedidoProducto db fkPedidos fkProductos) fkPedidos
                = getPedidoProducto db fkPedidos
                    ++ [⟨fkPedidos, pr.producto_id, pr.nombre, pr.precio⟩]
              ∧ (getPedidoProducto (crearPedidoProducto db fkPedidos fkProductos)
                    fkPedidos).length
                  = (getPedidoProducto db fkPedidos).length + 1) := by
  refine ⟨rfl, rfl, rfl, rfl, rfl, rfl, ?_, ?_⟩
  · intro r hr
    unfold getPedidoProducto at hr
    rw [List.mem_map] at hr
    obtain ⟨x, hx, rfl⟩ := hr
    rw [List.mem_filter] at hx
    exact beq_iff_eq.mp hx.2
  · intro hkp hkpr p0 hp0 hid pr hpr hprid
    have hsel : ∀ (d : BaseDatos), d.pedidos = db.pedidos →
        d.pedidos.filter (fun p => p.pedido_id == fkPedidos) = [p0] := by
      intro d hd
      rw [hd]
      have h := filter_key_eq_singleton (fun p : Pedido => p.pedido_id) db.pedidos hkp p0 hp0
      have hfun : (fun p : Pedido => p.pedido_id == fkPedidos)
          = (fun z => p0.pedido_id == z.pedido_id) := by
        funext z
        rw [hid]
        exact Bool.beq_comm
      rw [hfun]
      exact h
    have hprod : db.productos.filter (fun q => q.producto_id == fkProductos) = [pr] := by
      have h := filter_key_eq_singleton (fun p : Producto => p.producto_id) db.productos hkpr
        pr hpr
      have hfun : (fun q : Producto => q.producto_id == fkProductos)
          = (fun z => pr.producto_id == z.producto_id) := by
        funext z
        rw [hprid]
        exact Bool.beq_comm
      rw [hfun]
      exact h
    have heq : getPedidoProducto (crearPedidoProducto db fkPedidos fkProductos) fkPedidos
        = getPedidoProducto db fkPedidos
            ++ [⟨fkPedidos, pr.producto_id, pr.nombre, pr.precio⟩] := by
      rw [getPedidoProducto_eq (crearPedidoProducto db fkPedidos fkProductos) fkPedidos p0
          (hsel _ rfl),
        getPedidoProducto_eq db fkPedidos p0 (hsel db rfl)]
      have hpp : (crearPedidoProducto db fkPedidos fkProductos).pedido_productos
          = db.pedido_productos ++ [⟨fkPedidos, fkProductos⟩] := rfl
      have hpr2 : (crearPedidoProducto db fkPedidos fkProductos).productos = db.productos := rfl
      rw [hpp, hpr2, List.filter_append, List.map_append, sqlJoin_append, List.map_append]
      congr 1
      simp [List.filter_cons, hid, sqlJoin_cons, sqlJoin_nil, hprod]
    exact ⟨heq, by rw [heq, List.length_append]; rfl⟩

theorem crearPedidoProducto_marco_witness :
    getPedidoProducto (crearPedidoProducto dbLineas 1 11) 1
        = getPedidoProducto dbLineas 1 ++ [⟨1, 11, "Taza", 80⟩]
      ∧ (getPedidoProducto (crearPedidoProducto dbLineas 1 11) 1).length
          = (getPedidoProducto dbLineas 1).length + 1 :=
  (crearPedidoProducto_marco dbLineas 1 11).2.2.2.2.2.2.2 (by decide) (by decide)
    ⟨1, 7, 7, 1, 100, 2500, "tarjeta", 0⟩ (by decide) rfl ⟨11, "Taza", 80⟩ (by decide) rfl

/-! ## Global error handler -/

theorem IS_DEV_iff (nodeEnv : Option String) :
    IS_DEV nodeEnv = true ↔ nodeEnv ≠ some "production" := by
  unfold IS_DEV ENV
  cases nodeEnv with
  | none => simp
  | some s =>
    by_cases hs : s = ""
    · subst hs
      simp
    · simp [hs]

/-- C19. The response of the global error handler has status 500 and the fixed
`mensaje` for every error; it has a `detalles` field exactly when `NODE_ENV` is
not `production`, and then the field is `err.message` when that is truthy and
the text of `err.toString()` otherwise. -/
theorem manejadorErrores_detalles (nodeEnv : Option String) (err : ErrorExpress) :
    (manejadorErrores nodeEnv err).estado = 500
      ∧ (manejadorErrores nodeEnv err).mensaje = "Ha ocurrido un error inesperado."
      ∧ ((manejadorErrores nodeEnv err).detalles.isSome = true ↔ nodeEnv ≠ some "production")
      ∧ (nodeEnv = some "production" → (manejadorErrores nodeEnv err).detalles = none)
      ∧ (nodeEnv ≠ some "production" →
          (manejadorErrores nodeEnv err).detalles
            = some (if err.message.esVerdadero then err.message else .cadena err.aCadena)) := by
  have hiff := IS_DEV_iff nodeEnv
  refine ⟨rfl, rfl, ?_, ?_, ?_⟩
  · unfold manejadorErrores
    by_cases h : IS_DEV nodeEnv = true
    · simp [h, hiff.mp h]
    · have hprod : nodeEnv = some "production" := by
        by_contra hn
        exact h (hiff.mpr hn)
      have hf : IS_DEV nodeEnv = false := by simpa using h
      rw [hf]
      simp [hprod]
  · intro hprod
    have h : ¬ IS_DEV nodeEnv = true := fun hd => (hiff.mp hd) hprod
    simp [manejadorErrores, h]
  · intro hn
    simp [manejadorErrores, hiff.mpr hn]

theorem manejadorErrores_detalles_witness :
    (manejadorErrores (some "production") ⟨.cadena "ER_ACCESS_DENIED", "Error"⟩).detalles = none
      ∧ (manejadorErrores none ⟨.cadena "ER_ACCESS_DENIED", "Error"⟩).detalles
          = some (.cadena "ER_ACCESS_DENIED") :=
  ⟨(manejadorErrores_detalles (some "production") ⟨.cadena "ER_ACCESS_DENIED", "Error"⟩).2.2.2.1
      rfl,
    (manejadorErrores_detalles none ⟨.cadena "ER_ACCESS_DENIED", "Error"⟩).2.2.2.2
      (by decide)⟩

end TianguiStore
